import Mathlib

/-! # TickTock Plumbing website: the quote-request pipeline

A shallow embedding of the two source files of the repository:

* `api/send-quote.js`, the serverless quote request handler (namespace `SendQuote`);
* `script.js`, the client form controller `FormHandler` (namespace `Script`).

JavaScript values are embedded as the inductive type `JSValue`, thrown values as
`Thrown`; the effects of the handler (reading the request body, calling the email
provider, logging) are recorded in an explicit trace, and an exception is the `error`
side of an `Except`.
-/

namespace SendQuote

/-! ## JavaScript values -/

/-- The JavaScript values that reach the handler: `undefined`, `null`, strings, and
objects. An object is represented by the two observations the handler makes of one:
the value of its `message` property (`undefined` when it has none) and the string its
string conversion returns (`"Error: boom"` for `new Error("boom")`, `"[object Object]"`
for a plain object). Numbers and booleans are outside the QuoteRequest data model,
whose fields are strings, and are not embedded; nor are objects whose string
conversion throws. -/
inductive JSValue where
  | undefined
  | null
  | string (s : String)
  | object (message : JSValue) (text : String)
  deriving DecidableEq, Repr

/-- ECMAScript `ToBoolean`: what `!v`, `v ? a : b`, `v || w` and `if (v)` test. -/
def toBoolean : JSValue → Bool
  | .undefined => false
  | .null => false
  | .string s => s != ""
  | .object _ _ => true

/-- ECMAScript `ToString`, applied to each substitution of a template literal. -/
def toStr : JSValue → String
  | .undefined => "undefined"
  | .null => "null"
  | .string s => s
  | .object _ text => text

/-- The JavaScript expression `a || b`. -/
def jsOr (a b : JSValue) : JSValue :=
  if toBoolean a then a else b

/-- A `TypeError` instance carrying the given message. -/
def typeError (msg : String) : JSValue :=
  .object (.string msg) ("TypeError: " ++ msg)

/-- The property read `v.message`. It throws a `TypeError` on `undefined` and `null`
(the message text is V8's); a string has no such property. -/
def getMessage : JSValue → Except JSValue JSValue
  | .undefined => .error (typeError "Cannot read properties of undefined (reading 'message')")
  | .null => .error (typeError "Cannot read properties of null (reading 'message')")
  | .string _ => .ok .undefined
  | .object m _ => .ok m

/-- The method call `v.toString()` on a value of `JSValue`, whose objects have a string
conversion that returns. -/
def callToString : JSValue → Except JSValue String
  | .undefined => .error (typeError "Cannot read properties of undefined (reading 'toString')")
  | .null => .error (typeError "Cannot read properties of null (reading 'toString')")
  | .string s => .ok s
  | .object _ text => .ok text

/-- A thrown value. Any JavaScript value can be thrown: a value of `JSValue`, or an
object outside of it, represented by what the two operations of the `catch` block give
on it: reading its `message` (a value, or the exception a getter throws) and calling
its `toString()` (a string, or an exception: the `TypeError` of a `toString` that is
not callable, as on `Object.create(null)` or `{toString: 1}`, or what the method
throws). -/
inductive Thrown where
  | value (v : JSValue)
  | object (message : Except JSValue JSValue) (toString : Except JSValue String)
  deriving Repr

/-- The property read `error.message` on a thrown value. -/
def Thrown.getMessage : Thrown → Except Thrown JSValue
  | .value v =>
    match SendQuote.getMessage v with
    | .ok m => .ok m
    | .error t => .error (.value t)
  | .object (.ok m) _ => .ok m
  | .object (.error t) _ => .error (.value t)

/-- The method call `error.toString()` on a thrown value. -/
def Thrown.callToString : Thrown → Except Thrown String
  | .value v =>
    match SendQuote.callToString v with
    | .ok s => .ok s
    | .error t => .error (.value t)
  | .object _ (.ok s) => .ok s
  | .object _ (.error t) => .error (.value t)

/-! ## Requests, responses and effects -/

/-- The eight properties `const { firstName, ..., message } = req.body` reads from the
body object. A property the body does not have is `undefined`. -/
structure Payload where
  firstName : JSValue
  lastName : JSValue
  email : JSValue
  phone : JSValue
  address : JSValue
  service : JSValue
  urgency : JSValue
  message : JSValue
  deriving DecidableEq, Repr

/-- The value of `req.body`: `undefined` or `null` when no body was sent, otherwise a
value whose properties can be read (a primitive body has none of the eight properties:
it is `object` with every field `undefined`). -/
inductive Body where
  | undefined
  | null
  | object (p : Payload)
  deriving DecidableEq, Repr

/-- A request: its HTTP verb and what reading `req.body` gives, either a value or,
for a body the runtime cannot parse, a thrown exception. -/
structure Request where
  method : String
  body : Except Thrown Body

/-- The object handed to `res.json`; a key the object literal does not have is `none`. -/
structure ResponseBody where
  success : Bool
  error : Option JSValue
  message : Option String
  details : Option JSValue
  deriving DecidableEq, Repr

/-- The outcome of `res.status(code).json(body)`. -/
structure Response where
  status : Nat
  body : ResponseBody
  deriving DecidableEq, Repr

/-- The argument of `resend.emails.send`. -/
structure SendParams where
  from_ : String
  to_ : List String
  replyTo : JSValue
  subject : String
  html : String
  deriving DecidableEq, Repr

/-- What awaiting `resend.emails.send(...)` gives: the `data` and `error` properties of
the object it resolves with, or the value it throws or rejects with. -/
inductive DeliveryOutcome where
  | resolved (data error : JSValue)
  | rejected (thrown : Thrown)
  deriving Repr

/-- The observable effects of one run of the handler, in order. -/
inductive Effect where
  | readBody
  | send (params : SendParams)
  | consoleError (label : String) (value : Thrown)
  | consoleLog (label : String) (value : JSValue)
  deriving Repr

/-- One run: the effects performed and either the response sent or, on the `error`
side, the exception that leaves the code (the handler's promise rejects with it). -/
structure Run where
  effects : List Effect
  result : Except Thrown Response

/-! ## The email body (`emailHtml`, lines 23-58) -/

/-- A template literal is a sequence of literal chunks and substitutions; `sub` holds
the string a substitution `${...}` evaluates to. -/
inductive Piece where
  | lit (s : String)
  | sub (s : String)
  deriving DecidableEq, Repr

/-- The text a piece contributes. -/
def Piece.text : Piece → String
  | .lit s => s
  | .sub s => s

/-- Evaluation of a template literal: the chunks and the substituted strings, joined
in order. -/
def render : List Piece → String
  | [] => ""
  | x :: xs => x.text ++ render xs

/-- The nested template of line 34, `address ? <paragraph> : ''`. -/
def addressPieces (address : JSValue) : List Piece :=
  if toBoolean address then
    [.lit "<p><strong>Address:</strong> ", .sub (toStr address), .lit "</p>"]
  else []

/-- The nested template of lines 43-48, `message ? <block> : ''`, chunk by chunk. -/
def messagePieces (message : JSValue) : List Piece :=
  if toBoolean message then
    [.lit "\n",
     .lit "                <div style=\"background-color: #f9f9f9; padding: 20px; border-radius: 8px; margin: 20px 0;\">\n",
     .lit "                    ", .lit "<h3 style=\"color: #333; margin-top: 0;\">Message</h3>",
     .lit "\n",
     .lit "                    ", .lit "<p>", .sub (toStr message), .lit "</p>", .lit "\n",
     .lit "                </div>\n",
     .lit "                "]
  else []

/-- Lines 23-34 of the template literal, up to the substitution of the address
paragraph: chunk by chunk in source order, one literal per source line, split where a
substitution stands. -/
def headPieces (p : Payload) : List Piece :=
  [.lit "\n",
   .lit "            <div style=\"font-family: Arial, sans-serif; max-width: 600px; margin: 0 auto;\">\n",
   .lit "                <h2 style=\"color: #7E8A6D; border-bottom: 2px solid #7E8A6D; padding-bottom: 10px;\">\n",
   .lit "                    New Quote Request from TickTock Plumbing Website\n",
   .lit "                </h2>\n",
   .lit "                \n",
   .lit "                <div style=\"background-color: #f9f9f9; padding: 20px; border-radius: 8px; margin: 20px 0;\">\n",
   .lit "                    <h3 style=\"color: #333; margin-top: 0;\">Customer Information</h3>\n",
   .lit "                    ",
   .lit "<p><strong>Name:</strong> ", .sub (toStr p.firstName), .lit " ", .sub (toStr p.lastName), .lit "</p>",
   .lit "\n",
   .lit "                    <p><strong>Email:</strong> ",
   .lit "<a href=\"mailto:", .sub (toStr p.email), .lit "\">", .sub (toStr p.email), .lit "</a>",
   .lit "</p>\n",
   .lit "                    <p><strong>Phone:</strong> ",
   .lit "<a href=\"tel:", .sub (toStr p.phone), .lit "\">", .sub (toStr p.phone), .lit "</a>",
   .lit "</p>\n",
   .lit "                    "]

/-- Lines 34-43 of the template literal, between the two conditional substitutions. -/
def servicePieces (p : Payload) : List Piece :=
  [.lit "\n",
   .lit "                </div>\n",
   .lit "                \n",
   .lit "                <div style=\"background-color: #f9f9f9; padding: 20px; border-radius: 8px; margin: 20px 0;\">\n",
   .lit "                    <h3 style=\"color: #333; margin-top: 0;\">Service Details</h3>\n",
   .lit "                    ",
   .lit "<p><strong>Service Needed:</strong> ", .sub (toStr (jsOr p.service (.string "Not specified"))), .lit "</p>",
   .lit "\n",
   .lit "                    ",
   .lit "<p><strong>Urgency:</strong> ", .sub (toStr (jsOr p.urgency (.string "Routine Service"))), .lit "</p>",
   .lit "\n",
   .lit "                </div>\n",
   .lit "                \n",
   .lit "                "]

/-- Lines 48-58 of the template literal, after the substitution of the message block. -/
def tailPieces (p : Payload) : List Piece :=
  [.lit "\n",
   .lit "                \n",
   .lit "                <div style=\"margin-top: 30px; padding: 15px; background-color: #7E8A6D; color: white; border-radius: 8px; text-align: center;\">\n",
   .lit "                    <p style=\"margin: 0;\">Reply directly to this email or call the customer at <strong>",
   .sub (toStr p.phone), .lit "</strong></p>\n",
   .lit "                </div>\n",
   .lit "                \n",
   .lit "                <p style=\"color: #666; font-size: 12px; margin-top: 20px; text-align: center;\">\n",
   .lit "                    This email was sent from the TickTock Plumbing website contact form.\n",
   .lit "                </p>\n",
   .lit "            </div>\n",
   .lit "        "]

/-- The template literal of lines 23-58. -/
def emailTemplate (p : Payload) : List Piece :=
  headPieces p ++ addressPieces p.address ++ servicePieces p ++ messagePieces p.message
    ++ tailPieces p

/-- The string bound to `emailHtml`. -/
def emailHtml (p : Payload) : String :=
  render (emailTemplate p)

/-! ## The handler (`module.exports`, lines 5-89) -/

/-- The subject line of line 65. -/
def subject (p : Payload) : String :=
  "New Quote Request: " ++ toStr (jsOr p.service (.string "General Inquiry")) ++ " - "
    ++ toStr p.firstName ++ " " ++ toStr p.lastName

/-- The object literal passed to `resend.emails.send` (lines 61-67). -/
def sendParams (p : Payload) : SendParams :=
  { from_ := "TickTock Plumbing <ernesto@maktubworkspace.com>"
    to_ := ["ticktockplumbing@yahoo.com"]
    replyTo := p.email
    subject := subject p
    html := emailHtml p }

/-- The body of the `try` block (lines 12-79). A result on the `error` side is an
exception thrown inside the block. The `TypeError` of destructuring an absent body
carries V8's message text. -/
def tryBlock (resend : SendParams → DeliveryOutcome) (req : Request) : Run :=
  match req.body with
  | .error e => { effects := [.readBody], result := .error e }
  | .ok .undefined =>
    { effects := [.readBody]
      result := .error (.value (typeError
        "Cannot destructure property 'firstName' of 'req.body' as it is undefined.")) }
  | .ok .null =>
    { effects := [.readBody]
      result := .error (.value (typeError
        "Cannot destructure property 'firstName' of 'req.body' as it is null.")) }
  | .ok (.object p) =>
    if !toBoolean p.firstName || !toBoolean p.lastName || !toBoolean p.email
        || !toBoolean p.phone then
      { effects := [.readBody]
        result := .ok
          { status := 400
            body := { success := false, error := some (.string "Missing required fields"),
                      message := none, details := none } } }
    else
      match resend (sendParams p) with
      | .rejected e => { effects := [.readBody, .send (sendParams p)], result := .error e }
      | .resolved data error =>
        if toBoolean error then
          match getMessage error with
          | .error t =>
            { effects := [.readBody, .send (sendParams p),
                          .consoleError "Resend error:" (.value error)]
              result := .error (.value t) }
          | .ok m =>
            { effects := [.readBody, .send (sendParams p),
                          .consoleError "Resend error:" (.value error)]
              result := .ok
                { status := 500
                  body := { success := false
                            error := some (jsOr m (.string "Failed to send email"))
                            message := none
                            details := some error } } }
        else
          { effects := [.readBody, .send (sendParams p),
                        .consoleLog "Email sent successfully:" data]
            result := .ok
              { status := 200
                body := { success := true, error := none,
                          message := some "Quote request sent successfully",
                          details := none } } }

/-- The `catch` block (lines 81-88), entered with the effects so far and the thrown
value. An exception raised here, by the read of `error.message` or by the call of
`error.toString()`, leaves the handler. -/
def catchBlock (effects : List Effect) (error : Thrown) : Run :=
  match error.getMessage with
  | .error t => { effects := effects ++ [.consoleError "Server error:" error], result := .error t }
  | .ok m =>
    match error.callToString with
    | .error t =>
      { effects := effects ++ [.consoleError "Server error:" error], result := .error t }
    | .ok s =>
      { effects := effects ++ [.consoleError "Server error:" error]
        result := .ok
          { status := 500
            body := { success := false
                      error := some (jsOr m (.string "Internal server error"))
                      message := none
                      details := some (.string s) } } }

/-- The exported handler, given the email provider's send operation. -/
def handler (resend : SendParams → DeliveryOutcome) (req : Request) : Run :=
  if req.method ≠ "POST" then
    { effects := []
      result := .ok
        { status := 405
          body := { success := false, error := some (.string "Method not allowed"),
                    message := none, details := none } } }
  else
    match tryBlock resend req with
    | { effects := es, result := .error e } => catchBlock es e
    | { effects := es, result := .ok r } => { effects := es, result := .ok r }

end SendQuote

namespace Script

/-! ## Strings and the two regular expressions of `validateField` -/

/-- The code points `String.prototype.trim` strips and the class `\s` matches:
ECMAScript's WhiteSpace and LineTerminator. -/
def isWhiteSpace (c : Char) : Bool :=
  c.toNat == 0x09 || c.toNat == 0x0A || c.toNat == 0x0B || c.toNat == 0x0C
    || c.toNat == 0x0D || c.toNat == 0x20 || c.toNat == 0xA0 || c.toNat == 0x1680
    || (0x2000 ≤ c.toNat && c.toNat ≤ 0x200A) || c.toNat == 0x2028 || c.toNat == 0x2029
    || c.toNat == 0x202F || c.toNat == 0x205F || c.toNat == 0x3000 || c.toNat == 0xFEFF

/-- The method `trim()`: white space is dropped at both ends. -/
def trim (s : String) : String :=
  ⟨(s.data.dropWhile isWhiteSpace).rdropWhile isWhiteSpace⟩

/-- The property `length` of a string: its number of UTF-16 code units. -/
def jsLength (s : String) : Nat :=
  (s.data.map fun c => if c.toNat < 0x10000 then 1 else 2).sum

/-- The regular expressions of the source are sequences of a character class taken
once or, under `+`, one or more times. -/
inductive Atom where
  | one (cls : Char → Bool)
  | plus (cls : Char → Bool)

/-- Whether the whole of a text matches a sequence of atoms (`^...$`): `one` consumes a
character of its class, `plus` one or more. -/
def matchAtoms : List Atom → List Char → Bool
  | [], s => s.isEmpty
  | _ :: _, [] => false
  | .one cls :: rest, c :: s => cls c && matchAtoms rest s
  | .plus cls :: rest, c :: s =>
    cls c && (matchAtoms rest s || matchAtoms (.plus cls :: rest) s)

/-- The method `regex.test(value)` for an anchored expression. -/
def test (regex : List Atom) (value : String) : Bool :=
  matchAtoms regex value.data

/-- The class `[^\s@]`. A character outside the Basic Multilingual Plane is two code
units, both of which belong to the class. -/
def notSpaceNorAt (c : Char) : Bool :=
  !isWhiteSpace c && c != '@'

/-- The class `\d`: the digits `0` to `9`. -/
def isDigit (c : Char) : Bool :=
  0x30 ≤ c.toNat && c.toNat ≤ 0x39

/-- The class `[\d\s\-\(\)\+]`. -/
def phoneChar (c : Char) : Bool :=
  isDigit c || isWhiteSpace c || c == '-' || c == '(' || c == ')' || c == '+'

/-- The expression `/^[^\s@]+@[^\s@]+\.[^\s@]+$/` (line 157). -/
def emailRegex : List Atom :=
  [.plus notSpaceNorAt, .one (· == '@'), .plus notSpaceNorAt, .one (· == '.'),
   .plus notSpaceNorAt]

/-- The expression `/^[\d\s\-\(\)\+]+$/` (line 164). -/
def phoneRegex : List Atom :=
  [.plus phoneChar]

/-! ## The form -/

/-- The element `field.closest('.form-group')`: whether its class list holds `error`
and `success`, and the texts of its `.error-message` descendants in document order. -/
structure FormGroup where
  error : Bool
  success : Bool
  errorMessages : List String
  deriving DecidableEq, Repr

/-- An input, select or textarea of the form, with the field group that encloses it
(the spec's field group: one input and its error presentation). -/
structure Field where
  type : String
  required : Bool
  name : String
  value : String
  defaultValue : String
  group : FormGroup
  deriving DecidableEq, Repr

/-- The rule of the `switch` of `validateField` (lines 155-175): `isValid` and
`errorMessage` after it. -/
def validationRule (field : Field) (value : String) : Bool × String :=
  if field.type = "email" then
    if !test emailRegex value then (false, "Please enter a valid email address")
    else (true, "")
  else if field.type = "tel" then
    if !test phoneRegex value || jsLength value < 10 then
      (false, "Please enter a valid phone number")
    else (true, "")
  else
    if field.required && value == "" then (false, "This field is required")
    else (true, "")

/-- The method `validateField(field)` (lines 142-194): the returned `isValid` and the
field group as the method leaves it. The first existing error message is removed; an
invalid field gets the `error` class and a new message appended, a valid non-empty
one the `success` class, a valid empty one neither. -/
def validateField (field : Field) : Bool × FormGroup :=
  let value := trim field.value
  let formGroup := { field.group with errorMessages := field.group.errorMessages.tail }
  let rule := validationRule field value
  if rule.1 && value != "" then
    (rule.1, { formGroup with error := false, success := true })
  else if !rule.1 then
    (rule.1, { error := true, success := false
               errorMessages := formGroup.errorMessages ++ [rule.2] })
  else
    (rule.1, { formGroup with error := false, success := false })

/-- The method `validateForm()` (lines 206-217): `forEach` over the required fields
with the accumulator `isFormValid`; the second component is the form's fields after
the loop. -/
def validateForm (fields : List Field) : Bool × List Field :=
  fields.foldl
    (fun (acc : Bool × List Field) (input : Field) =>
      if input.required then
        let r := validateField input
        (if !r.1 then false else acc.1, acc.2 ++ [{ input with group := r.2 }])
      else (acc.1, acc.2 ++ [input]))
    (true, [])

/-- The content of the submit button: set through `textContent` or through
`innerHTML`. -/
inductive ButtonContent where
  | text (s : String)
  | html (markup : String)
  deriving DecidableEq, Repr

/-- The submit control `.form-submit`. -/
structure Button where
  disabled : Bool
  content : ButtonContent
  deriving DecidableEq, Repr

/-- The state of a `FormHandler`: the form's inputs in document order, the submit
button, the label recorded by the constructor, and the form's `.form-message`
elements (text and type) in document order. The timer that removes a message after
five seconds is not part of the model. -/
structure FormHandler where
  fields : List Field
  submitButton : Button
  originalButtonText : String
  messages : List (String × String)
  deriving DecidableEq, Repr

/-- What `fetch('/api/send-quote', ...)` followed by `response.json()` gives: `fetch`
rejects, or a response arrives whose body is not JSON, or a response arrives with
parsed data whose `error` property is the given string (empty when it has none). -/
inductive FetchOutcome where
  | rejected (reason : String)
  | unparsable (ok : Bool) (reason : String)
  | json (ok : Bool) (error : String)
  deriving DecidableEq, Repr

/-- The observable effects of `handleSubmit`, in order. -/
inductive ClientEffect where
  | setDisabled (value : Bool)
  | fetch (url : String) (method : String) (body : List (String × String))
  | consoleError (label : String) (text : String)
  deriving DecidableEq, Repr

/-- Whether a property name is an array index, the canonical decimal form of an integer
from 0 to 2^32 - 2, and which one. -/
def arrayIndex (name : String) : Option Nat :=
  if name.data.all isDigit && !name.data.isEmpty
      && (name == "0" || name.data.head? != some '0') then
    let index := name.data.foldl (fun n c => 10 * n + (c.toNat - 0x30)) 0
    if index ≤ 4294967294 then some index else none
  else none

/-- The assignment `formData[name] = value` of a string to a property of a plain
object, the object being represented by its own properties in the order
`JSON.stringify` lists them: array indices first, in ascending order, then the other
names in the order of their creation. An existing property keeps its place; the name
`__proto__` reaches the setter of `Object.prototype`, which ignores a string, and
creates no property. -/
def setKey (formData : List (String × String)) (name value : String) :
    List (String × String) :=
  if name == "__proto__" then formData
  else if formData.any (fun kv => kv.1 == name) then
    formData.map fun kv => if kv.1 == name then (name, value) else kv
  else
    match arrayIndex name with
    | none => formData ++ [(name, value)]
    | some index =>
      let smaller (kv : String × String) : Bool :=
        match arrayIndex kv.1 with
        | some other => other < index
        | none => false
      formData.takeWhile smaller ++ [(name, value)] ++ formData.dropWhile smaller

/-- The method `collectFormData()` (lines 251-262): the own properties of `formData`
in the order `JSON.stringify` lists them. -/
def collectFormData (fields : List Field) : List (String × String) :=
  fields.foldl
    (fun formData input =>
      if input.name != "" then setKey formData input.name (trim input.value) else formData)
    []

/-- The method `sendQuoteRequest(formData)` (lines 264-281): its effects and either
its return or the message of the error it throws. -/
def sendQuoteRequest (fetch : List (String × String) → FetchOutcome)
    (formData : List (String × String)) : List ClientEffect × Except String Unit :=
  match fetch formData with
  | .rejected reason => ([.fetch "/api/send-quote" "POST" formData], .error reason)
  | .unparsable _ reason => ([.fetch "/api/send-quote" "POST" formData], .error reason)
  | .json ok error =>
    if !ok then
      ([.fetch "/api/send-quote" "POST" formData, .consoleError "API Error Details:" error],
       .error (if error != "" then error else "Failed to send quote request"))
    else ([.fetch "/api/send-quote" "POST" formData], .ok ())

/-- The method `showMessage(message, type)` (lines 283-323): the first existing
message is removed and the new one appended. -/
def showMessage (self : FormHandler) (message type : String) : FormHandler :=
  { self with messages := self.messages.tail ++ [(message, type)] }

/-- The call `this.form.reset()`: every field takes its default value. -/
def reset (self : FormHandler) : FormHandler :=
  { self with fields := self.fields.map fun f => { f with value := f.defaultValue } }

/-- The method `clearAllValidationStates()` (lines 325-334). -/
def clearAllValidationStates (self : FormHandler) : FormHandler :=
  { self with
    fields := self.fields.map fun f =>
      { f with group := { error := false, success := false
                          errorMessages := f.group.errorMessages.tail } } }

/-- The method `handleSubmit()` (lines 219-249): the state it leaves and its effects. -/
def handleSubmit (fetch : List (String × String) → FetchOutcome) (self : FormHandler) :
    FormHandler × List ClientEffect :=
  let validated := validateForm self.fields
  let self := { self with fields := validated.2 }
  if !validated.1 then
    (showMessage self "Please fix the errors above" "error", [])
  else
    let self := { self with
      submitButton :=
        { disabled := true
          content := .html "<i class=\"fas fa-spinner fa-spin\"></i> Sending..." } }
    let sent := sendQuoteRequest fetch (collectFormData self.fields)
    let self :=
      match sent.2 with
      | .ok _ =>
        clearAllValidationStates
          (reset (showMessage self "Thank you! We'll get back to you soon." "success"))
      | .error _ =>
        showMessage self
          "Something went wrong. Please try again or call us at (305) 766-5526." "error"
    let logged :=
      match sent.2 with
      | .ok _ => []
      | .error e => [ClientEffect.consoleError "Form submission error:" e]
    ({ self with
        submitButton := { disabled := false, content := .text self.originalButtonText } },
     [.setDisabled true] ++ sent.1 ++ logged ++ [.setDisabled false])

/-! ## The testimonial carousel -/

/-- The state of a `TestimonialCarouselManager`: for each `.testimonial-slide` and for
each `.dot`, in document order, whether its class list holds `active`, and the field
`currentSlide`. The timer of the automatic advance is not part of the model. -/
structure Carousel where
  slides : List Bool
  dots : List Bool
  currentSlide : Int
  deriving DecidableEq, Repr

/-- The lookup `list[index]` on a node list: `none` stands for `undefined`, which an
index outside the list gives. -/
def item (list : List Bool) (index : Int) : Option Bool :=
  if 0 ≤ index then list[index.toNat]? else none

/-- The `TypeError` of reading `classList` of `undefined`, with the lookup that gave
`undefined`. -/
inductive LookupFailure where
  | slides (index : Int)
  | dots (index : Int)
  deriving DecidableEq, Repr

/-- The wraparound of `goToSlide` (lines 549-553): the value of `slideIndex` after the
`if`, for a carousel of `length` slides. -/
def wrapIndex (length : Nat) (slideIndex : Int) : Int :=
  if slideIndex ≥ length then 0
  else if slideIndex < 0 then length - 1
  else slideIndex

/-- The method `goToSlide(slideIndex)` (lines 547-563): the state it leaves and, when a
lookup gives `undefined`, the exception it throws at that point. -/
def goToSlide (self : Carousel) (slideIndex : Int) : Carousel × Option LookupFailure :=
  let slideIndex := wrapIndex self.slides.length slideIndex
  match item self.slides self.currentSlide with
  | none => (self, some (.slides self.currentSlide))
  | some _ =>
    let self := { self with slides := self.slides.set self.currentSlide.toNat false }
    match item self.dots self.currentSlide with
    | none => (self, some (.dots self.currentSlide))
    | some _ =>
      let self := { self with
        dots := self.dots.set self.currentSlide.toNat false
        currentSlide := slideIndex }
      match item self.slides self.currentSlide with
      | none => (self, some (.slides self.currentSlide))
      | some _ =>
        let self := { self with slides := self.slides.set self.currentSlide.toNat true }
        match item self.dots self.currentSlide with
        | none => (self, some (.dots self.currentSlide))
        | some _ =>
          ({ self with dots := self.dots.set self.currentSlide.toNat true }, none)

end Script

namespace SendQuote

/-! ## Predicates and sample inputs for the properties of the handler -/

/-- A field the body lacks: it is absent (`undefined`), `null` or the empty string. -/
def lacks (v : JSValue) : Prop :=
  v = .undefined ∨ v = .null ∨ v = .string ""

instance (v : JSValue) : Decidable (lacks v) :=
  inferInstanceAs (Decidable (v = .undefined ∨ v = .null ∨ v = .string ""))

/-- Whether an effect is a call of the delivery operation. -/
def Effect.isSend : Effect → Bool
  | .send _ => true
  | _ => false

/-- The payload of the spec's first end-to-end scenario. -/
def janeDoe : Payload :=
  { firstName := .string "Jane", lastName := .string "Doe", email := .string "jane@x.com"
    phone := .string "305-555-1234", address := .undefined, service := .undefined
    urgency := .undefined, message := .undefined }

/-- The payload of the spec's second end-to-end scenario: only `firstName` is given. -/
def janeOnly : Payload :=
  { firstName := .string "Jane", lastName := .undefined, email := .undefined
    phone := .undefined, address := .undefined, service := .undefined
    urgency := .undefined, message := .undefined }

/-- A provider that accepts every email. -/
def acceptAll : SendParams → DeliveryOutcome :=
  fun _ => .resolved (.object .undefined "[object Object]") .null

/-- The value of `error.message` for a provider error (a string has no such property). -/
def messageOf : JSValue → JSValue
  | .object m _ => m
  | _ => .undefined

/-- The error object of a provider that rejects the API key. -/
def invalidKey : JSValue :=
  .object (.string "API key is invalid") "[object Object]"

/-- A provider that refuses every email with the given error object. -/
def refuseAll (error : JSValue) : SendParams → DeliveryOutcome :=
  fun _ => .resolved .null error

/-- A provider whose send operation rejects with the given value. -/
def rejectWith (thrown : Thrown) : SendParams → DeliveryOutcome :=
  fun _ => .rejected thrown

/-- The object `Object.create(null)` as a thrown value: it has no `message` and no
`toString`, so that calling `error.toString()` throws a `TypeError` (the message text
is V8's). -/
def bareObject : Thrown :=
  .object (.ok .undefined) (.error (typeError "error.toString is not a function"))

/-- The text `needle` occurs in `text`. -/
def occursIn (needle text : String) : Prop :=
  needle.data <:+: text.data

instance (needle text : String) : Decidable (occursIn needle text) :=
  inferInstanceAs (Decidable (needle.data <:+: text.data))

/-- The text of a value carries no markup: it does not contain the character `<`. -/
def noMarkup (v : JSValue) : Prop :=
  '<' ∉ (toStr v).data

instance (v : JSValue) : Decidable (noMarkup v) :=
  inferInstanceAs (Decidable ('<' ∉ (toStr v).data))

/-- None of the eight fields of a payload carries markup. -/
def Payload.noMarkup (p : Payload) : Prop :=
  SendQuote.noMarkup p.firstName ∧ SendQuote.noMarkup p.lastName
    ∧ SendQuote.noMarkup p.email ∧ SendQuote.noMarkup p.phone
    ∧ SendQuote.noMarkup p.address ∧ SendQuote.noMarkup p.service
    ∧ SendQuote.noMarkup p.urgency ∧ SendQuote.noMarkup p.message

instance (p : Payload) : Decidable p.noMarkup := by
  unfold Payload.noMarkup; infer_instance

/-- The opening of the Address paragraph of line 34. -/
def addressMarker : String :=
  "<p><strong>Address:</strong>"

/-- The heading of the Message block of line 45. -/
def messageMarker : String :=
  "<h3 style=\"color: #333; margin-top: 0;\">Message</h3>"

/-- A payload without address whose message carries the markup of an Address
paragraph. -/
def forgedAddress : Payload :=
  { janeDoe with message := .string "<p><strong>Address:</strong> 1 Main St</p>" }

/-- A payload with every optional field given. -/
def fullRequest : Payload :=
  { janeDoe with
    address := .string "1 Main St, Miami", service := .string "Drain Cleaning"
    urgency := .string "Emergency", message := .string "Kitchen sink is clogged" }

/-! ### Where a text cannot occur in a rendered template

The skeleton of a template keeps the characters of the literal chunks and replaces every
substitution by a gap. `safe m` checks on a skeleton that the text `<` followed by `m`
occurs nowhere, whatever markup-free strings fill the gaps. -/

/-- The skeleton of a template: `some c` for a character of a literal chunk, `none` for
a substitution. -/
def shapeOf : List Piece → List (Option Char)
  | [] => []
  | .lit s :: ps => s.data.map some ++ shapeOf ps
  | .sub _ :: ps => none :: shapeOf ps

/-- The text `m` is certainly not a beginning of what follows: a literal character
differs, the skeleton ends first, or `m` asks for `<` where a gap stands (a gap is
filled with markup-free text; an empty filling is covered by going on after the gap). -/
def clash : List Char → List (Option Char) → Bool
  | [], _ => false
  | _ :: _, [] => true
  | c :: m, some d :: s => c != d || clash m s
  | c :: m, none :: s => c == '<' && clash (c :: m) s

/-- At no `<` of the skeleton does the text `<` followed by `m` begin. -/
def safe (m : List Char) : List (Option Char) → Bool
  | [] => true
  | some d :: s => (d != '<' || clash m s) && safe m s
  | none :: s => safe m s

/-- The texts a skeleton stands for: every gap is filled with a string without `<`. -/
inductive Fills : List (Option Char) → List Char → Prop
  | nil : Fills [] []
  | lit (c : Char) {s : List (Option Char)} {t : List Char} :
      Fills s t → Fills (some c :: s) (c :: t)
  | gap (u : List Char) {s : List (Option Char)} {t : List Char} :
      '<' ∉ u → Fills s t → Fills (none :: s) (u ++ t)

/-- The payload with the required fields of `janeDoe` and the given optional address and
message: a representative of each of the four shapes of the template. -/
def shapeCase (address message : JSValue) : Payload :=
  { janeDoe with address := address, message := message }

end SendQuote

namespace Script

/-! ## Predicates and sample inputs for the properties of the form controller -/

/-- The formatting characters of a phone number: space, parentheses, hyphen and plus
sign. -/
def isFormatting (c : Char) : Bool :=
  c == ' ' || c == '(' || c == ')' || c == '-' || c == '+'

/-- The number of digits a value has once its formatting characters are stripped. -/
def strippedDigits (value : String) : Nat :=
  ((value.data.filter fun c => !isFormatting c).filter isDigit).length

/-- The shape `local@domain.tld` in the words of the specification: no white space, exactly one
`@`, a non-empty part before the `@`, and a part after the `@` in which a `.` stands
with at least one character before it and at least one after it (a `.` other than at
the first and the last place of that part). -/
def emailShape (v : List Char) : Bool :=
  v.all (fun c => !isWhiteSpace c)
    && v.count '@' == 1
    && !(v.takeWhile (· != '@')).isEmpty
    && (((v.dropWhile (· != '@')).drop 1).drop 1).dropLast.contains '.'

/-- An email field holding the given value, in a field group without classes. -/
def emailField (value : String) : Field :=
  { type := "email", required := true, name := "email", value := value, defaultValue := ""
    group := { error := false, success := false, errorMessages := [] } }

/-- A phone field holding the given value, in a field group without classes. -/
def telField (value : String) : Field :=
  { type := "tel", required := true, name := "phone", value := value, defaultValue := ""
    group := { error := false, success := false, errorMessages := [] } }

/-- A form whose required first name holds only blanks. -/
def blankNameForm : FormHandler :=
  { fields := [{ type := "text", required := true, name := "firstName", value := "  "
                 defaultValue := ""
                 group := { error := false, success := false, errorMessages := [] } },
               telField "(305) 555-1234"]
    submitButton := { disabled := false, content := .text "Get My Free Quote" }
    originalButtonText := "Get My Free Quote"
    messages := [] }

/-- A form whose two required fields pass validation. -/
def validForm : FormHandler :=
  { fields := [telField "(305) 555-1234", emailField "jane@x.com"]
    submitButton := { disabled := false, content := .text "Get My Free Quote" }
    originalButtonText := "Get My Free Quote"
    messages := [] }

/-- A field with the given type, required flag and value in the given field group. -/
def fieldIn (type : String) (required : Bool) (value : String) (group : FormGroup) : Field :=
  { type := type, required := required, name := "", value := value, defaultValue := ""
    group := group }

/-- A carousel of three slides and three dots showing its last slide. -/
def threeSlides : Carousel :=
  { slides := [false, false, true], dots := [false, false, true], currentSlide := 2 }

end Script

/-! # Theorems -/

/-! ## The quote request handler -/

namespace SendQuote

theorem toBoolean_eq_false_iff (v : JSValue) : toBoolean v = false ↔ lacks v := by
  cases v <;> simp [toBoolean, lacks]

theorem toBoolean_eq_true_iff (v : JSValue) : toBoolean v = true ↔ ¬ lacks v := by
  cases v <;> simp [toBoolean, lacks]

/-- C1. A POST request whose body lacks at least one of `firstName`, `lastName`,
`email`, `phone` (absent, `null` or empty) is answered with HTTP 400 and
`{success: false, error: "Missing required fields"}`; the only effect is the read of
the body, so the delivery operation is never invoked. -/
theorem handler_missing_required_fields (resend : SendParams → DeliveryOutcome)
    (req : Request) (p : Payload)
    (hm : req.method = "POST") (hb : req.body = .ok (.object p))
    (hl : lacks p.firstName ∨ lacks p.lastName ∨ lacks p.email ∨ lacks p.phone) :
    (handler resend req).result
        = .ok { status := 400
                body := { success := false
                          error := some (.string "Missing required fields")
                          message := none, details := none } }
      ∧ (handler resend req).effects = [.readBody]
      ∧ ∀ params, Effect.send params ∉ (handler resend req).effects := by
  have hc : (!toBoolean p.firstName || !toBoolean p.lastName || !toBoolean p.email
      || !toBoolean p.phone) = true := by
    rcases hl with h | h | h | h <;>
      simp [(toBoolean_eq_false_iff _).2 h]
  simp [handler, tryBlock, hm, hb, hc]

/-- C1, witness: the spec's second end-to-end scenario, a POST of `{firstName: "Jane"}`. -/
theorem handler_missing_required_fields_witness :
    ("POST" = "POST" ∧ (lacks janeOnly.firstName ∨ lacks janeOnly.lastName
        ∨ lacks janeOnly.email ∨ lacks janeOnly.phone))
      ∧ ((handler acceptAll ⟨"POST", .ok (.object janeOnly)⟩).result
          = .ok { status := 400
                  body := { success := false
                            error := some (.string "Missing required fields")
                            message := none, details := none } }
        ∧ (handler acceptAll ⟨"POST", .ok (.object janeOnly)⟩).effects = [.readBody]
        ∧ ∀ params, Effect.send params
            ∉ (handler acceptAll ⟨"POST", .ok (.object janeOnly)⟩).effects) :=
  ⟨⟨rfl, by decide⟩,
   handler_missing_required_fields acceptAll ⟨"POST", .ok (.object janeOnly)⟩ janeOnly rfl rfl
    (by decide)⟩

/-- C2. A request whose method is not POST is answered with HTTP 405 and
`{success: false, error: "Method not allowed"}` whatever its body is (absent, malformed
or well-formed); the run has no effect at all: the body is not read and the delivery
operation is not invoked. -/
theorem handler_method_not_allowed (resend : SendParams → DeliveryOutcome) (req : Request)
    (hm : req.method ≠ "POST") :
    (handler resend req).result
        = .ok { status := 405
                body := { success := false
                          error := some (.string "Method not allowed")
                          message := none, details := none } }
      ∧ (handler resend req).effects = []
      ∧ Effect.readBody ∉ (handler resend req).effects
      ∧ ∀ params, Effect.send params ∉ (handler resend req).effects := by
  simp [handler, hm]

/-- C2, witness: the spec's third end-to-end scenario, a GET request, here with a body
whose read would throw. -/
theorem handler_method_not_allowed_witness :
    "GET" ≠ "POST"
      ∧ ((handler acceptAll ⟨"GET", .error (.value .undefined)⟩).result
          = .ok { status := 405
                  body := { success := false
                            error := some (.string "Method not allowed")
                            message := none, details := none } }
        ∧ (handler acceptAll ⟨"GET", .error (.value .undefined)⟩).effects = []
        ∧ Effect.readBody ∉ (handler acceptAll ⟨"GET", .error (.value .undefined)⟩).effects
        ∧ ∀ params, Effect.send params
            ∉ (handler acceptAll ⟨"GET", .error (.value .undefined)⟩).effects) :=
  ⟨by decide, handler_method_not_allowed acceptAll ⟨"GET", .error (.value .undefined)⟩ (by decide)⟩

theorem getMessage_of_truthy (e : JSValue) (h : toBoolean e = true) :
    getMessage e = .ok (messageOf e) := by
  cases e <;> simp_all [toBoolean, getMessage, messageOf]

theorem jsOr_eq (a b : JSValue) : jsOr a b = if lacks a then b else a := by
  by_cases h : toBoolean a = true
  · simp [jsOr, h, (toBoolean_eq_true_iff a).1 h]
  · have hf : toBoolean a = false := by simpa using h
    simp [jsOr, hf, (toBoolean_eq_false_iff a).1 hf]

/-- The run for a valid payload when the provider returns a result without error. -/
theorem handler_valid_sent (resend : SendParams → DeliveryOutcome) (req : Request)
    (p : Payload) (data error : JSValue)
    (hm : req.method = "POST") (hb : req.body = .ok (.object p))
    (h1 : toBoolean p.firstName = true) (h2 : toBoolean p.lastName = true)
    (h3 : toBoolean p.email = true) (h4 : toBoolean p.phone = true)
    (hr : resend (sendParams p) = .resolved data error) (he : toBoolean error = false) :
    handler resend req
      = { effects := [.readBody, .send (sendParams p),
                      .consoleLog "Email sent successfully:" data]
          result := .ok
            { status := 200
              body := { success := true, error := none
                        message := some "Quote request sent successfully"
                        details := none } } } := by
  simp [handler, tryBlock, hm, hb, h1, h2, h3, h4, hr, he]

/-- The run for a valid payload when the provider returns a result with an error. -/
theorem handler_valid_provider_error (resend : SendParams → DeliveryOutcome) (req : Request)
    (p : Payload) (data error : JSValue)
    (hm : req.method = "POST") (hb : req.body = .ok (.object p))
    (h1 : toBoolean p.firstName = true) (h2 : toBoolean p.lastName = true)
    (h3 : toBoolean p.email = true) (h4 : toBoolean p.phone = true)
    (hr : resend (sendParams p) = .resolved data error) (he : toBoolean error = true) :
    handler resend req
      = { effects := [.readBody, .send (sendParams p),
                      .consoleError "Resend error:" (.value error)]
          result := .ok
            { status := 500
              body := { success := false
                        error := some (jsOr (messageOf error) (.string "Failed to send email"))
                        message := none
                        details := some error } } } := by
  simp [handler, tryBlock, hm, hb, h1, h2, h3, h4, hr, he, getMessage_of_truthy error he]

/-- The run for a valid payload when the provider throws or rejects: the `catch` block
is entered after the send. -/
theorem handler_valid_rejected (resend : SendParams → DeliveryOutcome) (req : Request)
    (p : Payload) (e : Thrown)
    (hm : req.method = "POST") (hb : req.body = .ok (.object p))
    (h1 : toBoolean p.firstName = true) (h2 : toBoolean p.lastName = true)
    (h3 : toBoolean p.email = true) (h4 : toBoolean p.phone = true)
    (hr : resend (sendParams p) = .rejected e) :
    handler resend req = catchBlock [.readBody, .send (sendParams p)] e := by
  simp [handler, tryBlock, hm, hb, h1, h2, h3, h4, hr]

/-- C3. For a POST request whose four required fields are all present and non-empty,
and a delivery operation that returns a result `{data, error}`, the response is a
function of `error` alone: HTTP 200 with
`{success: true, message: "Quote request sent successfully"}` exactly when no error is
reported, and otherwise HTTP 500 with `success: false`, `error` the provider's message
(or `"Failed to send email"` when that message is empty) and `details` the provider's
error. -/
theorem handler_response_decided_by_delivery (resend : SendParams → DeliveryOutcome)
    (req : Request) (p : Payload) (data error : JSValue)
    (hm : req.method = "POST") (hb : req.body = .ok (.object p))
    (h1 : ¬ lacks p.firstName) (h2 : ¬ lacks p.lastName) (h3 : ¬ lacks p.email)
    (h4 : ¬ lacks p.phone)
    (hr : resend (sendParams p) = .resolved data error) :
    ((handler resend req).result
        = .ok { status := 200
                body := { success := true, error := none
                          message := some "Quote request sent successfully"
                          details := none } }
      ↔ lacks error)
    ∧ (¬ lacks error →
        (handler resend req).result
          = .ok { status := 500
                  body := { success := false
                            error := some (if lacks (messageOf error)
                                            then .string "Failed to send email"
                                            else messageOf error)
                            message := none
                            details := some error } }) := by
  rw [← toBoolean_eq_true_iff] at h1 h2 h3 h4
  by_cases he : toBoolean error = true
  · have hl : ¬ lacks error := (toBoolean_eq_true_iff error).1 he
    rw [handler_valid_provider_error resend req p data error hm hb h1 h2 h3 h4 hr he, jsOr_eq]
    simp [hl]
  · have hf : toBoolean error = false := by simpa using he
    have hl : lacks error := (toBoolean_eq_false_iff error).1 hf
    rw [handler_valid_sent resend req p data error hm hb h1 h2 h3 h4 hr hf]
    simp [hl]

/-- C3, witness: a valid payload and a provider that reports an invalid API key. -/
theorem handler_response_decided_by_delivery_witness :
    ("POST" = "POST" ∧ ¬ lacks janeDoe.firstName ∧ ¬ lacks janeDoe.lastName
        ∧ ¬ lacks janeDoe.email ∧ ¬ lacks janeDoe.phone)
      ∧ (((handler (refuseAll invalidKey) ⟨"POST", .ok (.object janeDoe)⟩).result
            = .ok { status := 200
                    body := { success := true, error := none
                              message := some "Quote request sent successfully"
                              details := none } }
          ↔ lacks invalidKey)
        ∧ (¬ lacks invalidKey →
            (handler (refuseAll invalidKey) ⟨"POST", .ok (.object janeDoe)⟩).result
              = .ok { status := 500
                      body := { success := false
                                error := some (if lacks (messageOf invalidKey)
                                                then .string "Failed to send email"
                                                else messageOf invalidKey)
                                message := none
                                details := some invalidKey } })) :=
  ⟨⟨rfl, by decide, by decide, by decide, by decide⟩,
   handler_response_decided_by_delivery (refuseAll invalidKey)
    ⟨"POST", .ok (.object janeDoe)⟩ janeDoe .null invalidKey rfl rfl (by decide) (by decide)
    (by decide) (by decide) rfl⟩

theorem catchBlock_effects (es : List Effect) (e : Thrown) :
    (catchBlock es e).effects = es ++ [.consoleError "Server error:" e] := by
  unfold catchBlock
  cases e.getMessage with
  | error t => rfl
  | ok m => cases e.callToString <;> rfl

/-- C4. For a POST request whose four required fields are all present, the run contains
exactly one call of the delivery operation, whatever that call answers: its sender is
`TickTock Plumbing <ernesto@maktubworkspace.com>`, its single recipient
`ticktockplumbing@yahoo.com`, its `replyTo` the submitted email, and its subject
`New Quote Request: S - firstName lastName` with `S` the submitted service, or
`General Inquiry` when service is absent or empty. -/
theorem handler_sends_once (resend : SendParams → DeliveryOutcome) (req : Request)
    (p : Payload)
    (hm : req.method = "POST") (hb : req.body = .ok (.object p))
    (h1 : ¬ lacks p.firstName) (h2 : ¬ lacks p.lastName) (h3 : ¬ lacks p.email)
    (h4 : ¬ lacks p.phone) :
    (handler resend req).effects.filter Effect.isSend
      = [.send { from_ := "TickTock Plumbing <ernesto@maktubworkspace.com>"
                 to_ := ["ticktockplumbing@yahoo.com"]
                 replyTo := p.email
                 subject := "New Quote Request: "
                   ++ (if lacks p.service then "General Inquiry" else toStr p.service)
                   ++ " - " ++ toStr p.firstName ++ " " ++ toStr p.lastName
                 html := emailHtml p }] := by
  rw [← toBoolean_eq_true_iff] at h1 h2 h3 h4
  have hs : sendParams p
      = { from_ := "TickTock Plumbing <ernesto@maktubworkspace.com>"
          to_ := ["ticktockplumbing@yahoo.com"]
          replyTo := p.email
          subject := "New Quote Request: "
            ++ (if lacks p.service then "General Inquiry" else toStr p.service)
            ++ " - " ++ toStr p.firstName ++ " " ++ toStr p.lastName
          html := emailHtml p } := by
    simp only [sendParams, subject, jsOr_eq]
    by_cases h : lacks p.service <;> simp [h, toStr]
  rw [← hs]
  cases hr : resend (sendParams p) with
  | rejected e =>
    rw [handler_valid_rejected resend req p e hm hb h1 h2 h3 h4 hr, catchBlock_effects]
    simp [Effect.isSend]
  | resolved data error =>
    by_cases he : toBoolean error = true
    · rw [handler_valid_provider_error resend req p data error hm hb h1 h2 h3 h4 hr he]
      simp [Effect.isSend]
    · have hf : toBoolean error = false := by simpa using he
      rw [handler_valid_sent resend req p data error hm hb h1 h2 h3 h4 hr hf]
      simp [Effect.isSend]

/-- C4, witness: the spec's first end-to-end scenario. -/
theorem handler_sends_once_witness :
    ("POST" = "POST" ∧ ¬ lacks janeDoe.firstName ∧ ¬ lacks janeDoe.lastName
        ∧ ¬ lacks janeDoe.email ∧ ¬ lacks janeDoe.phone)
      ∧ (handler acceptAll ⟨"POST", .ok (.object janeDoe)⟩).effects.filter Effect.isSend
          = [.send { from_ := "TickTock Plumbing <ernesto@maktubworkspace.com>"
                     to_ := ["ticktockplumbing@yahoo.com"]
                     replyTo := janeDoe.email
                     subject := "New Quote Request: "
                       ++ (if lacks janeDoe.service then "General Inquiry"
                            else toStr janeDoe.service)
                       ++ " - " ++ toStr janeDoe.firstName ++ " " ++ toStr janeDoe.lastName
                     html := emailHtml janeDoe }] :=
  ⟨⟨rfl, by decide, by decide, by decide, by decide⟩,
   handler_sends_once acceptAll ⟨"POST", .ok (.object janeDoe)⟩ janeDoe rfl rfl
    (by decide) (by decide) (by decide) (by decide)⟩

/-- C10, counterexample. For a valid POST request, the delivery operation rejects with
`undefined` (as `Promise.reject()` does) or with `Object.create(null)`: the exception
is raised inside the `try` block and the `catch` block raises a `TypeError` of its
own, reading `error.message` of `undefined` in the first case and calling a
`toString` that does not exist in the second. That exception leaves the handler and
no response is sent. -/
theorem handler_exception_escapes :
    ((tryBlock (rejectWith (.value .undefined)) ⟨"POST", .ok (.object janeDoe)⟩).result
          = .error (.value .undefined)
        ∧ (handler (rejectWith (.value .undefined)) ⟨"POST", .ok (.object janeDoe)⟩).result
          = .error (.value
              (typeError "Cannot read properties of undefined (reading 'message')")))
      ∧ ((tryBlock (rejectWith bareObject) ⟨"POST", .ok (.object janeDoe)⟩).result
          = .error bareObject
        ∧ (handler (rejectWith bareObject) ⟨"POST", .ok (.object janeDoe)⟩).result
          = .error (.value (typeError "error.toString is not a function"))) := by
  refine ⟨⟨?_, ?_⟩, ?_, ?_⟩
  · simp [tryBlock, rejectWith, janeDoe, toBoolean]
  · rw [handler_valid_rejected (rejectWith (.value .undefined))
      ⟨"POST", .ok (.object janeDoe)⟩ janeDoe (.value .undefined) rfl rfl (by decide)
      (by decide) (by decide) (by decide) rfl]
    simp [catchBlock, Thrown.getMessage, getMessage]
  · simp [tryBlock, rejectWith, janeDoe, toBoolean]
  · rw [handler_valid_rejected (rejectWith bareObject) ⟨"POST", .ok (.object janeDoe)⟩
      janeDoe bareObject rfl rfl (by decide) (by decide) (by decide) (by decide) rfl]
    simp [catchBlock, bareObject, Thrown.getMessage, Thrown.callToString]

/-- Every string and every object of `JSValue` thrown lets the `catch` block read its
message and call its `toString()`. -/
theorem value_readable (v : JSValue) (hu : v ≠ .undefined) (hn : v ≠ .null) :
    (Thrown.value v).getMessage = .ok (messageOf v)
      ∧ (Thrown.value v).callToString = .ok (toStr v) := by
  cases v with
  | undefined => exact absurd rfl hu
  | null => exact absurd rfl hn
  | string s => exact ⟨rfl, rfl⟩
  | object m t => exact ⟨rfl, rfl⟩

/-- C10, amended. Every exception raised in the `try` block of a POST request whose
thrown value lets the `catch` block read its `message` and call its `toString()` with
a string as result (every thrown string and every Error object, such as the
`TypeError` of an absent body) is caught: the handler responds with HTTP 500 and the
internal-error body, `success: false`, `error` the message (or
`"Internal server error"` when it is absent or empty) and `details` the string
representation, and no exception leaves the handler. -/
theorem handler_catches_exception (resend : SendParams → DeliveryOutcome) (req : Request)
    (e : Thrown) (message : JSValue) (text : String)
    (hm : req.method = "POST")
    (hraise : (tryBlock resend req).result = .error e)
    (hmessage : e.getMessage = .ok message)
    (htext : e.callToString = .ok text) :
    (handler resend req).result
      = .ok { status := 500
              body := { success := false
                        error := some (if lacks message
                                        then .string "Internal server error"
                                        else message)
                        message := none
                        details := some (.string text) } } := by
  have hh : handler resend req = catchBlock (tryBlock resend req).effects e := by
    cases ht : tryBlock resend req with
    | mk es res =>
      rw [ht] at hraise
      simp only at hraise
      subst hraise
      simp [handler, hm, ht]
  rw [hh]
  simp [catchBlock, hmessage, htext, jsOr_eq]

/-- C10, witness: a POST request without body; the `TypeError` of the destructuring is
caught and reported. -/
theorem handler_catches_exception_witness :
    ("POST" = "POST"
        ∧ (tryBlock acceptAll ⟨"POST", .ok .undefined⟩).result
            = .error (.value (typeError
                "Cannot destructure property 'firstName' of 'req.body' as it is undefined."))
        ∧ (Thrown.value (typeError
              "Cannot destructure property 'firstName' of 'req.body' as it is undefined.")).getMessage
            = .ok (.string
                "Cannot destructure property 'firstName' of 'req.body' as it is undefined.")
        ∧ (Thrown.value (typeError
              "Cannot destructure property 'firstName' of 'req.body' as it is undefined.")).callToString
            = .ok "TypeError: Cannot destructure property 'firstName' of 'req.body' as it is undefined.")
      ∧ (handler acceptAll ⟨"POST", .ok .undefined⟩).result
          = .ok { status := 500
                  body := { success := false
                            error := some (.string
                              "Cannot destructure property 'firstName' of 'req.body' as it is undefined.")
                            message := none
                            details := some (.string
                              "TypeError: Cannot destructure property 'firstName' of 'req.body' as it is undefined.") } } :=
  ⟨⟨rfl, rfl, rfl, rfl⟩,
   handler_catches_exception acceptAll ⟨"POST", .ok .undefined⟩ _ _ _ rfl rfl rfl rfl⟩

end SendQuote

/-! ## The client form controller -/

namespace Script

theorem matchAtoms_nil (s : List Char) : matchAtoms [] s = true ↔ s = [] := by
  cases s <;> simp [matchAtoms]

theorem matchAtoms_one (cls : Char → Bool) (rest : List Atom) (s : List Char) :
    matchAtoms (.one cls :: rest) s = true
      ↔ ∃ c t, s = c :: t ∧ cls c = true ∧ matchAtoms rest t = true := by
  cases s with
  | nil => simp [matchAtoms]
  | cons x s =>
    simp only [matchAtoms, Bool.and_eq_true, List.cons.injEq]
    constructor
    · rintro ⟨h1, h2⟩
      exact ⟨x, s, ⟨rfl, rfl⟩, h1, h2⟩
    · rintro ⟨c, t, ⟨rfl, rfl⟩, h1, h2⟩
      exact ⟨h1, h2⟩

theorem matchAtoms_plus (cls : Char → Bool) (rest : List Atom) (s : List Char) :
    matchAtoms (.plus cls :: rest) s = true
      ↔ ∃ a t, a ≠ [] ∧ s = a ++ t ∧ (∀ c ∈ a, cls c = true) ∧ matchAtoms rest t = true := by
  induction s with
  | nil =>
    simp only [matchAtoms, Bool.false_eq_true, false_iff, not_exists, not_and]
    intro a t hne heq
    cases a with
    | nil => exact absurd rfl hne
    | cons x a => simp at heq
  | cons c s ih =>
    simp only [matchAtoms, Bool.and_eq_true, Bool.or_eq_true, ih]
    constructor
    · rintro ⟨hc, h | ⟨a, t, -, rfl, ha, ht⟩⟩
      · exact ⟨[c], s, by simp, by simp, by simpa using hc, h⟩
      · exact ⟨c :: a, t, by simp, by simp, by simpa [hc] using ha, ht⟩
    · rintro ⟨a, t, hne, heq, ha, ht⟩
      cases a with
      | nil => exact absurd rfl hne
      | cons x a =>
        simp only [List.cons_append, List.cons.injEq] at heq
        obtain ⟨rfl, rfl⟩ := heq
        refine ⟨ha c (by simp), ?_⟩
        cases a with
        | nil => left; simpa using ht
        | cons y a =>
          right
          exact ⟨y :: a, t, by simp, rfl, fun z hz => ha z (by simp [hz]), ht⟩

/-- A text matches `[cls]+` exactly when it is non-empty and all its characters are in
the class. -/
theorem matchAtoms_plus_only (cls : Char → Bool) (s : List Char) :
    matchAtoms [.plus cls] s = true ↔ s ≠ [] ∧ ∀ c ∈ s, cls c = true := by
  rw [matchAtoms_plus]
  constructor
  · rintro ⟨a, t, hne, rfl, ha, ht⟩
    rw [matchAtoms_nil] at ht
    subst ht
    simpa using ⟨hne, ha⟩
  · rintro ⟨hne, ha⟩
    exact ⟨s, [], hne, by simp, ha, by simp [matchAtoms]⟩

end Script

namespace Script

theorem validateField_fst (field : Field) :
    (validateField field).1 = (validationRule field (trim field.value)).1 := by
  unfold validateField
  simp only
  split
  · rfl
  · split <;> rfl

theorem isDigit_not_whiteSpace (c : Char) (h : isDigit c = true) : isWhiteSpace c = false := by
  simp only [isDigit, Bool.and_eq_true, decide_eq_true_eq] at h
  simp only [isWhiteSpace, Bool.or_eq_false_iff, beq_eq_false_iff_ne, ne_eq,
    Bool.and_eq_false_imp, decide_eq_true_eq, decide_eq_false_iff_not]
  omega

theorem phoneChar_lt (c : Char) (h : phoneChar c = true) : c.toNat < 0x10000 := by
  simp only [phoneChar, isDigit, isWhiteSpace, Bool.or_eq_true, Bool.and_eq_true,
    decide_eq_true_eq, beq_iff_eq] at h
  rcases h with ((((h | h) | h) | h) | h) | h
  · omega
  · omega
  · subst h; decide
  · subst h; decide
  · subst h; decide
  · subst h; decide

theorem jsLength_eq_length (s : List Char) (h : ∀ c ∈ s, c.toNat < 0x10000) :
    jsLength ⟨s⟩ = s.length := by
  induction s with
  | nil => rfl
  | cons c s ih =>
    have hc := h c (by simp)
    have := ih fun x hx => h x (by simp [hx])
    simp only [jsLength, List.map_cons, List.sum_cons, List.length_cons] at this ⊢
    simp [hc, this]
    omega

theorem trim_data (s : String) :
    (trim s).data = (s.data.dropWhile isWhiteSpace).rdropWhile isWhiteSpace := rfl

theorem mem_trim (s : String) (c : Char) (h : c ∈ (trim s).data) : c ∈ s.data := by
  rw [trim_data] at h
  exact (List.dropWhile_suffix _).subset ((List.rdropWhile_prefix _ _).subset h)

theorem countP_dropWhile (p q : Char → Bool) (hpq : ∀ c, q c = true → p c = false)
    (l : List Char) : (l.dropWhile q).countP p = l.countP p := by
  induction l with
  | nil => rfl
  | cons c l ih =>
    by_cases hq : q c = true
    · simp [List.dropWhile_cons, hq, ih, List.countP_cons, hpq c hq]
    · simp [List.dropWhile_cons, hq]

theorem countP_rdropWhile (p q : Char → Bool) (hpq : ∀ c, q c = true → p c = false)
    (l : List Char) : (l.rdropWhile q).countP p = l.countP p := by
  rw [List.rdropWhile, List.countP_reverse, countP_dropWhile p q hpq, List.countP_reverse]

/-- Trimming keeps every digit. -/
theorem countP_isDigit_trim (s : String) :
    (trim s).data.countP isDigit = s.data.countP isDigit := by
  have h : ∀ c, isWhiteSpace c = true → isDigit c = false := by
    intro c hc
    by_contra hd
    have := isDigit_not_whiteSpace c (by simpa using hd)
    simp [this] at hc
  rw [trim_data, countP_rdropWhile _ _ h, countP_dropWhile _ _ h]

theorem strippedDigits_le (s : String) : strippedDigits s ≤ s.data.countP isDigit := by
  unfold strippedDigits
  rw [← List.countP_eq_length_filter]
  exact (List.filter_sublist _).countP_le _

/-- The `tel` rule accepts exactly the trimmed values of at least ten code units made
of phone characters only. -/
theorem tel_rule_iff (field : Field) (ht : field.type = "tel") :
    (validateField field).1 = true
      ↔ (∀ c ∈ (trim field.value).data, phoneChar c = true)
        ∧ 10 ≤ jsLength (trim field.value) := by
  rw [validateField_fst]
  have hne : ¬ ("tel" = "email") := by decide
  simp only [validationRule, ht, hne, if_false, if_true, test]
  by_cases hm : matchAtoms phoneRegex (trim field.value).data = true
  · have hm2 := (matchAtoms_plus_only phoneChar _).1 hm
    by_cases hl : jsLength (trim field.value) < 10
    · have hl2 : ¬ 10 ≤ jsLength (trim field.value) := by omega
      simp [hm, hl, hl2]
    · have hl2 : 10 ≤ jsLength (trim field.value) := by omega
      simpa [hm, hl, hl2] using hm2.2
  · have hm3 : matchAtoms phoneRegex (trim field.value).data = false := by simpa using hm
    simp only [hm3, Bool.not_false, Bool.true_or, if_true, Bool.false_eq_true, false_iff,
      not_and, not_le]
    intro hall
    have hlen : (trim field.value).data = [] := by
      by_contra hne2
      exact hm ((matchAtoms_plus_only phoneChar _).2 ⟨hne2, hall⟩)
    show jsLength ⟨(trim field.value).data⟩ < 10
    rw [hlen]
    decide

/-- C6, counterexample. The value `305-555-12` has eight digits once its hyphens are
stripped, yet `validateField` reports the phone field valid: the code measures the
length of the trimmed value, hyphens included, which is ten. -/
theorem tel_eight_digits_reported_valid :
    strippedDigits "305-555-12" = 8 ∧ (validateField (telField "305-555-12")).1 = true := by
  decide

/-- C6, amended. For a phone (`tel`) field, `validateField` reports invalid whenever the
trimmed value has fewer than ten characters, formatting characters counted, and reports
valid whenever the value has at least ten digits and consists only of digits, spaces,
parentheses, hyphens and plus signs. -/
theorem validateField_tel (field : Field) (ht : field.type = "tel") :
    (jsLength (trim field.value) < 10 → (validateField field).1 = false)
      ∧ (10 ≤ strippedDigits field.value
          → (∀ c ∈ field.value.data, isDigit c = true ∨ isFormatting c = true)
          → (validateField field).1 = true) := by
  constructor
  · intro hl
    by_contra hv
    have := ((tel_rule_iff field ht).1 (by simpa using hv)).2
    omega
  · intro hd hall
    have hchars : ∀ c ∈ (trim field.value).data, phoneChar c = true := by
      intro c hc
      rcases hall c (mem_trim _ c hc) with h | h
      · simp [phoneChar, h]
      · simp only [isFormatting, Bool.or_eq_true, beq_iff_eq] at h
        rcases h with (((h | h) | h) | h) | h <;> subst h <;> decide
    refine (tel_rule_iff field ht).2 ⟨hchars, ?_⟩
    have h1 : jsLength (trim field.value) = (trim field.value).data.length :=
      jsLength_eq_length _ fun c hc => phoneChar_lt c (hchars c hc)
    have h2 := strippedDigits_le field.value
    have h3 := countP_isDigit_trim field.value
    have h4 : (trim field.value).data.countP isDigit ≤ (trim field.value).data.length :=
      List.countP_le_length _
    omega

/-- C6, witness: the phone field holding `(305) 555-1234`. -/
theorem validateField_tel_witness :
    (telField "(305) 555-1234").type = "tel"
      ∧ ((jsLength (trim (telField "(305) 555-1234").value) < 10
            → (validateField (telField "(305) 555-1234")).1 = false)
        ∧ (10 ≤ strippedDigits (telField "(305) 555-1234").value
            → (∀ c ∈ (telField "(305) 555-1234").value.data,
                isDigit c = true ∨ isFormatting c = true)
            → (validateField (telField "(305) 555-1234")).1 = true)) :=
  ⟨rfl, validateField_tel (telField "(305) 555-1234") rfl⟩

end Script

namespace Script

/-- The step of the `forEach` loop of `validateForm`. -/
theorem validateForm_loop (fields : List Field) (acc : Bool × List Field) :
    fields.foldl
        (fun (acc : Bool × List Field) (input : Field) =>
          if input.required then
            let r := validateField input
            (if !r.1 then false else acc.1, acc.2 ++ [{ input with group := r.2 }])
          else (acc.1, acc.2 ++ [input]))
        acc
      = (acc.1 && fields.all (fun f => !f.required || (validateField f).1),
         acc.2 ++ fields.map fun f =>
           if f.required then { f with group := (validateField f).2 } else f) := by
  induction fields generalizing acc with
  | nil => simp
  | cons f fields ih =>
    rw [List.foldl_cons, ih]
    by_cases hr : f.required = true
    · cases hv : (validateField f).1 <;> simp [hr, hv]
    · simp [hr]

theorem validateForm_fst (fields : List Field) :
    (validateForm fields).1
      = fields.all (fun f => !f.required || (validateField f).1) := by
  unfold validateForm
  rw [validateForm_loop]
  simp

/-- An invalid field is left with the `error` class and its message as the last inline
error of its group. -/
theorem validateField_invalid (field : Field) (h : (validateField field).1 = false) :
    (validateField field).2.error = true
      ∧ (validateField field).2.errorMessages.getLast?
          = some (validationRule field (trim field.value)).2 := by
  rw [validateField_fst] at h
  unfold validateField
  simp [h]

/-- C9. `validateForm` applies `validateField` to every required field, whether or not
an earlier field failed: each required field is left with the field group
`validateField` gives it (so each failing field shows its own error) and the other
fields are untouched; it returns true if and only if `validateField` returned valid
for every required field; and every required field that fails is in the resulting
form with the `error` class and its own message as last inline error. -/
theorem validateForm_all_required (fields : List Field) :
    (validateForm fields).2
        = fields.map (fun f =>
            if f.required then { f with group := (validateField f).2 } else f)
      ∧ ((validateForm fields).1 = true
          ↔ ∀ f ∈ fields, f.required = true → (validateField f).1 = true)
      ∧ ∀ f ∈ fields, f.required = true → (validateField f).1 = false →
          { f with group := (validateField f).2 } ∈ (validateForm fields).2
            ∧ (validateField f).2.error = true
            ∧ (validateField f).2.errorMessages.getLast?
                = some (validationRule f (trim f.value)).2 := by
  unfold validateForm
  rw [validateForm_loop]
  refine ⟨by simp, ?_, ?_⟩
  · simp only [Bool.true_and, List.all_eq_true, Bool.or_eq_true, Bool.not_eq_true']
    constructor
    · intro h f hf hr
      rcases h f hf with h1 | h1
      · simp [hr] at h1
      · exact h1
    · intro h f hf
      by_cases hr : f.required = true
      · exact Or.inr (h f hf hr)
      · exact Or.inl (by simpa using hr)
  · intro f hf hr hv
    refine ⟨?_, validateField_invalid f hv⟩
    simp only [List.nil_append, List.mem_map]
    exact ⟨f, hf, by simp [hr]⟩

/-- A required field whose value is empty after trimming fails validation, whatever
its type. -/
theorem validateField_empty_required (field : Field) (hr : field.required = true)
    (he : trim field.value = "") : (validateField field).1 = false := by
  rw [validateField_fst, he]
  unfold validationRule
  by_cases h1 : field.type = "email"
  · simp [h1, test, emailRegex, matchAtoms]
  · by_cases h2 : field.type = "tel"
    · simp [h1, h2, test, phoneRegex, matchAtoms]
    · simp [h1, h2, hr]

/-- C7. When at least one required field, of any type, has a value that is empty after
trimming, `handleSubmit` shows `Please fix the errors above` as an error message and
returns with no effect: `sendQuoteRequest` is not called, so no request is fetched,
and the submit control is never disabled and is left as it was. -/
theorem handleSubmit_empty_required (fetch : List (String × String) → FetchOutcome)
    (self : FormHandler)
    (h : ∃ f ∈ self.fields, f.required = true ∧ trim f.value = "") :
    (handleSubmit fetch self).2 = []
      ∧ (∀ url method body,
          ClientEffect.fetch url method body ∉ (handleSubmit fetch self).2)
      ∧ ClientEffect.setDisabled true ∉ (handleSubmit fetch self).2
      ∧ (handleSubmit fetch self).1.messages
          = self.messages.tail ++ [("Please fix the errors above", "error")]
      ∧ (handleSubmit fetch self).1.submitButton = self.submitButton := by
  obtain ⟨f, hf, hr, he⟩ := h
  have hv : (validateForm self.fields).1 = false := by
    rw [validateForm_fst, List.all_eq_false]
    exact ⟨f, hf, by simp [hr, validateField_empty_required f hr he]⟩
  simp [handleSubmit, hv, showMessage]

/-- C7, witness: a form whose required first name holds two blanks. -/
theorem handleSubmit_empty_required_witness :
    (∃ f ∈ blankNameForm.fields, f.required = true ∧ trim f.value = "")
      ∧ ((handleSubmit (fun _ => .json true "") blankNameForm).2 = []
        ∧ (∀ url method body, ClientEffect.fetch url method body
            ∉ (handleSubmit (fun _ => .json true "") blankNameForm).2)
        ∧ ClientEffect.setDisabled true
            ∉ (handleSubmit (fun _ => .json true "") blankNameForm).2
        ∧ (handleSubmit (fun _ => .json true "") blankNameForm).1.messages
            = blankNameForm.messages.tail ++ [("Please fix the errors above", "error")]
        ∧ (handleSubmit (fun _ => .json true "") blankNameForm).1.submitButton
            = blankNameForm.submitButton) :=
  ⟨⟨_, List.mem_cons_self _ _, rfl, by decide⟩,
   handleSubmit_empty_required (fun _ => .json true "") blankNameForm
    ⟨_, List.mem_cons_self _ _, rfl, by decide⟩⟩

end Script

namespace Script

/-- The matches of the email expression: a text `a@b.c` with `a`, `b`, `c` non-empty
and free of white space and `@`. -/
theorem matchAtoms_emailRegex (v : List Char) :
    matchAtoms emailRegex v = true
      ↔ ∃ a b c, v = a ++ '@' :: (b ++ '.' :: c) ∧ a ≠ [] ∧ b ≠ [] ∧ c ≠ []
          ∧ (∀ x ∈ a, notSpaceNorAt x = true) ∧ (∀ x ∈ b, notSpaceNorAt x = true)
          ∧ (∀ x ∈ c, notSpaceNorAt x = true) := by
  unfold emailRegex
  constructor
  · intro h
    obtain ⟨a, t1, ha, rfl, hall, h⟩ := (matchAtoms_plus _ _ _).1 h
    obtain ⟨x, t2, rfl, hx, h⟩ := (matchAtoms_one _ _ _).1 h
    obtain ⟨b, t3, hb, rfl, hbll, h⟩ := (matchAtoms_plus _ _ _).1 h
    obtain ⟨y, t4, rfl, hy, h⟩ := (matchAtoms_one _ _ _).1 h
    obtain ⟨hc, hcll⟩ := (matchAtoms_plus_only _ _).1 h
    simp only [beq_iff_eq] at hx hy
    subst hx hy
    exact ⟨a, b, t4, rfl, ha, hb, hc, hall, hbll, hcll⟩
  · rintro ⟨a, b, c, rfl, ha, hb, hc, hall, hbll, hcll⟩
    refine (matchAtoms_plus _ _ _).2 ⟨a, _, ha, rfl, hall, ?_⟩
    refine (matchAtoms_one _ _ _).2 ⟨'@', _, rfl, by simp, ?_⟩
    refine (matchAtoms_plus _ _ _).2 ⟨b, _, hb, rfl, hbll, ?_⟩
    refine (matchAtoms_one _ _ _).2 ⟨'.', _, rfl, by simp, ?_⟩
    exact (matchAtoms_plus_only _ _).2 ⟨hc, hcll⟩

theorem contains_iff_mem (l : List Char) (c : Char) : l.contains c = true ↔ c ∈ l := by
  simp

theorem notSpaceNorAt_iff (c : Char) :
    notSpaceNorAt c = true ↔ isWhiteSpace c = false ∧ c ≠ '@' := by
  simp [notSpaceNorAt]

/-- The email expression accepts exactly the texts of the shape `local@domain.tld`. -/
theorem matchAtoms_emailRegex_iff_shape (v : List Char) :
    matchAtoms emailRegex v = true ↔ emailShape v = true := by
  rw [matchAtoms_emailRegex]
  constructor
  · rintro ⟨a, b, c, rfl, ha, hb, hc, hall, hbll, hcll⟩
    have hp : ∀ x ∈ a, (x != '@') = true := fun x hx => by
      simpa using ((notSpaceNorAt_iff x).1 (hall x hx)).2
    have hna : '@' ∉ a := fun h => ((notSpaceNorAt_iff _).1 (hall _ h)).2 rfl
    have hnb : '@' ∉ b := fun h => ((notSpaceNorAt_iff _).1 (hbll _ h)).2 rfl
    have hnc : '@' ∉ c := fun h => ((notSpaceNorAt_iff _).1 (hcll _ h)).2 rfl
    obtain ⟨y, b', rfl⟩ := List.exists_cons_of_ne_nil hb
    unfold emailShape
    simp only [Bool.and_eq_true, List.all_eq_true, Bool.not_eq_true', beq_iff_eq]
    refine ⟨⟨⟨?_, ?_⟩, ?_⟩, ?_⟩
    · intro x hx
      simp only [List.mem_append, List.mem_cons] at hx
      rcases hx with hx | rfl | hx | rfl | hx
      · exact ((notSpaceNorAt_iff x).1 (hall x hx)).1
      · decide
      · exact ((notSpaceNorAt_iff x).1 (hbll x (List.mem_cons.2 hx))).1
      · decide
      · exact ((notSpaceNorAt_iff x).1 (hcll x hx)).1
    · have h1 : List.count '@' a = 0 := List.count_eq_zero.2 hna
      have h2 : List.count '@' (y :: b') = 0 := List.count_eq_zero.2 hnb
      have h3 : List.count '@' c = 0 := List.count_eq_zero.2 hnc
      have h4 : List.count '@' ('.' :: c) = 0 := by
        rw [List.count_cons, h3]; decide
      rw [List.count_append, List.count_cons, List.count_append, h1, h2, h4]
      simp
    · rw [List.takeWhile_append_of_pos hp]
      cases a with
      | nil => exact absurd rfl ha
      | cons x a => simp
    · rw [List.dropWhile_append_of_pos hp]
      simp only [List.dropWhile_cons, bne_self_eq_false, Bool.false_eq_true, if_false,
        List.drop_succ_cons, List.drop_zero, List.cons_append]
      rw [List.dropLast_append_of_ne_nil b' (by simp), List.dropLast_cons_of_ne_nil hc]
      simp
  · intro h
    unfold emailShape at h
    simp only [Bool.and_eq_true, List.all_eq_true, Bool.not_eq_true', beq_iff_eq,
      contains_iff_mem] at h
    obtain ⟨⟨⟨hws, hcount⟩, ha⟩, hdot⟩ := h
    have hsplit : v.takeWhile (· != '@') ++ v.dropWhile (· != '@') = v :=
      List.takeWhile_append_dropWhile _ _
    have hna : '@' ∉ v.takeWhile (· != '@') := fun hm => by
      simpa using List.mem_takeWhile_imp hm
    generalize hA : v.takeWhile (· != '@') = a at hsplit hna ha
    generalize hD : v.dropWhile (· != '@') = d at hsplit hdot
    cases d with
    | nil => simp at hdot
    | cons x r =>
      have hx : x = '@' := by
        have := List.head_dropWhile_not (· != '@') v (by rw [hD]; simp)
        simpa [hD] using this
      subst hx
      have hnr : '@' ∉ r := by
        rw [← hsplit, List.count_append, List.count_cons, List.count_eq_zero.2 hna] at hcount
        simp only [beq_self_eq_true, if_true, zero_add, add_left_eq_self] at hcount
        exact List.count_eq_zero.1 hcount
      cases r with
      | nil => simp at hdot
      | cons y r' =>
        simp only [List.drop_succ_cons, List.drop_zero] at hdot
        have hr' : r' ≠ [] := by
          rintro rfl
          simp at hdot
        obtain ⟨m1, m2, hm⟩ := List.append_of_mem hdot
        obtain ⟨w, hw⟩ : ∃ w, r' = r'.dropLast ++ [w] :=
          ⟨r'.getLast hr', (List.dropLast_append_getLast hr').symm⟩
        have hr'' : r' = m1 ++ '.' :: (m2 ++ [w]) := by
          rw [hw, hm]
          simp
        clear hw hm hdot hr'
        have hmem : ∀ z ∈ y :: r', notSpaceNorAt z = true := fun z hz =>
          (notSpaceNorAt_iff z).2
            ⟨hws z (by rw [← hsplit]; simp [hz]), fun hz2 => hnr (hz2 ▸ hz)⟩
        refine ⟨a, y :: m1, m2 ++ [w], ?_, ?_, by simp, by simp, ?_, ?_, ?_⟩
        · rw [← hsplit, hr'']; simp
        · rintro rfl
          simp at ha
        · intro z hz
          refine (notSpaceNorAt_iff z).2 ⟨hws z (by rw [← hsplit]; simp [hz]), ?_⟩
          rintro rfl
          exact hna hz
        · intro z hz
          apply hmem
          rw [hr'']
          simp only [List.mem_cons, List.mem_append] at hz ⊢
          tauto
        · intro z hz
          apply hmem
          rw [hr'']
          simp only [List.mem_cons, List.mem_append] at hz ⊢
          tauto

/-- C8. For an email field, `validateField` reports valid exactly when the trimmed value
has the shape `local@domain.tld` (no white space, exactly one `@`, a non-empty part
before it, and after it a part holding a `.` with at least one character on each
side); every other value is reported invalid, with `Please enter a valid email
address` as the inline error added to the field group. -/
theorem validateField_email (field : Field) (ht : field.type = "email") :
    ((validateField field).1 = true ↔ emailShape (trim field.value).data = true)
      ∧ (emailShape (trim field.value).data = false →
          (validateField field).1 = false
            ∧ (validateField field).2.errorMessages
                = field.group.errorMessages.tail ++ ["Please enter a valid email address"]) := by
  have hrule : validationRule field (trim field.value)
      = if emailShape (trim field.value).data = true then (true, "")
        else (false, "Please enter a valid email address") := by
    unfold validationRule
    by_cases h : emailShape (trim field.value).data = true
    · simp [ht, test, (matchAtoms_emailRegex_iff_shape _).2 h, h]
    · have h2 : matchAtoms emailRegex (trim field.value).data = false := by
        cases hm : matchAtoms emailRegex (trim field.value).data
        · rfl
        · exact absurd ((matchAtoms_emailRegex_iff_shape _).1 hm) h
      simp [ht, test, h2, h]
  constructor
  · rw [validateField_fst, hrule]
    by_cases h : emailShape (trim field.value).data = true <;> simp [h]
  · intro h
    unfold validateField
    simp [hrule, h]

/-- C8, witness: the email field holding `jane@x.com` between blanks. -/
theorem validateField_email_witness :
    (emailField " jane@x.com ").type = "email"
      ∧ (((validateField (emailField " jane@x.com ")).1 = true
            ↔ emailShape (trim (emailField " jane@x.com ").value).data = true)
        ∧ (emailShape (trim (emailField " jane@x.com ").value).data = false →
            (validateField (emailField " jane@x.com ")).1 = false
              ∧ (validateField (emailField " jane@x.com ")).2.errorMessages
                  = (emailField " jane@x.com ").group.errorMessages.tail
                      ++ ["Please enter a valid email address"])) :=
  ⟨rfl, validateField_email (emailField " jane@x.com ") rfl⟩

end Script

/-! ## The email body -/

namespace SendQuote

theorem render_append (xs ys : List Piece) :
    (render (xs ++ ys)).data = (render xs).data ++ (render ys).data := by
  induction xs with
  | nil => simp [render]
  | cons x xs ih => simp [render, ih]

theorem shapeOf_append (xs ys : List Piece) :
    shapeOf (xs ++ ys) = shapeOf xs ++ shapeOf ys := by
  induction xs with
  | nil => rfl
  | cons x xs ih => cases x <;> simp [shapeOf, ih]

theorem clash_sound {s : List (Option Char)} {t : List Char} (h : Fills s t) :
    ∀ m : List Char, clash m s = true → ¬ m <+: t := by
  induction h with
  | nil =>
    intro m hm hp
    cases m with
    | nil => simp [clash] at hm
    | cons c m => simp at hp
  | lit d hf ih =>
    intro m hm hp
    cases m with
    | nil => simp [clash] at hm
    | cons c m =>
      rw [List.cons_prefix_cons] at hp
      simp only [clash, Bool.or_eq_true, bne_iff_ne, ne_eq] at hm
      rcases hm with hm | hm
      · exact hm hp.1
      · exact ih m hm hp.2
  | gap u hu hf ih =>
    intro m hm hp
    cases m with
    | nil => simp [clash] at hm
    | cons c m =>
      simp only [clash, Bool.and_eq_true, beq_iff_eq] at hm
      cases u with
      | nil => exact ih _ hm.2 (by simpa using hp)
      | cons x u =>
        rw [List.cons_append, List.cons_prefix_cons] at hp
        exact hu (by rw [← hm.1, hp.1]; simp)

theorem safe_sound {s : List (Option Char)} {t : List Char} (h : Fills s t)
    (m : List Char) : safe m s = true → ¬ ('<' :: m) <:+: t := by
  induction h with
  | nil =>
    intro _ hi
    simp at hi
  | lit d hf ih =>
    intro hs hi
    simp only [safe, Bool.and_eq_true, Bool.or_eq_true, bne_iff_ne, ne_eq] at hs
    rcases List.infix_cons_iff.1 hi with hp | hi
    · rw [List.cons_prefix_cons] at hp
      rcases hs.1 with hd | hc
      · exact hd hp.1.symm
      · exact clash_sound hf m hc hp.2
    · exact ih hs.2 hi
  | @gap u s t hu hf ih =>
    intro hs hi
    simp only [safe] at hs
    induction u with
    | nil => exact ih hs (by simpa using hi)
    | cons x u ihu =>
      rcases List.infix_cons_iff.1 (by simpa using hi) with hp | hi
      · rw [List.cons_prefix_cons] at hp
        exact hu (by rw [hp.1]; simp)
      · exact ihu (fun hx => hu (by simp [hx])) hi

theorem fills_lit (l : List Char) {s : List (Option Char)} {t : List Char} (h : Fills s t) :
    Fills (l.map some ++ s) (l ++ t) := by
  induction l with
  | nil => simpa using h
  | cons c l ih => exact Fills.lit c ih

theorem fills_render (pieces : List Piece)
    (h : ∀ s, Piece.sub s ∈ pieces → '<' ∉ s.data) :
    Fills (shapeOf pieces) (render pieces).data := by
  induction pieces with
  | nil => exact Fills.nil
  | cons x xs ih =>
    have ih := ih fun s hs => h s (by simp [hs])
    cases x with
    | lit s => exact fills_lit s.data ih
    | sub s => exact Fills.gap s.data (h s (by simp)) ih

/-- A text beginning with `<` that the skeleton of a template excludes does not occur
in the rendered template when no substituted string contains `<`. -/
theorem not_occursIn_render (marker : String) (m : List Char) (pieces : List Piece)
    (hm : marker.data = '<' :: m)
    (hsafe : safe m (shapeOf pieces) = true)
    (h : ∀ s, Piece.sub s ∈ pieces → '<' ∉ s.data) :
    ¬ occursIn marker (render pieces) := by
  unfold occursIn
  rw [hm]
  exact safe_sound (fills_render pieces h) m hsafe

theorem render_occurs {xs ys : List Piece} (h : xs <:+: ys) :
    (render xs).data <:+: (render ys).data := by
  obtain ⟨pre, post, rfl⟩ := h
  rw [render_append, render_append]
  exact List.infix_append _ _ _

theorem headPieces_occurs (p : Payload) (xs : List Piece) (h : xs <:+: headPieces p) :
    (render xs).data <:+: (emailHtml p).data := by
  refine render_occurs (h.trans ?_)
  unfold emailTemplate
  simp only [List.append_assoc]
  exact (List.prefix_append _ _).isInfix

theorem addressPieces_occurs (p : Payload) (xs : List Piece)
    (h : xs <:+: addressPieces p.address) : (render xs).data <:+: (emailHtml p).data := by
  refine render_occurs (h.trans ?_)
  unfold emailTemplate
  simp only [List.append_assoc]
  exact List.infix_append' _ _ _

theorem servicePieces_occurs (p : Payload) (xs : List Piece) (h : xs <:+: servicePieces p) :
    (render xs).data <:+: (emailHtml p).data := by
  refine render_occurs (h.trans ?_)
  unfold emailTemplate
  exact ⟨headPieces p ++ addressPieces p.address, messagePieces p.message ++ tailPieces p,
    by simp only [List.append_assoc]⟩

theorem messagePieces_occurs (p : Payload) (xs : List Piece)
    (h : xs <:+: messagePieces p.message) : (render xs).data <:+: (emailHtml p).data := by
  refine render_occurs (h.trans ?_)
  unfold emailTemplate
  exact List.infix_append _ _ _

/-- The name paragraph occurs in the email. -/
theorem name_occurs (p : Payload) :
    occursIn ("<p><strong>Name:</strong> " ++ toStr p.firstName ++ " " ++ toStr p.lastName
      ++ "</p>") (emailHtml p) := by
  have h := headPieces_occurs p _
    ⟨(headPieces p).take 9, (headPieces p).drop 14,
      (rfl : _ ++ [.lit "<p><strong>Name:</strong> ", .sub (toStr p.firstName), .lit " ",
        .sub (toStr p.lastName), .lit "</p>"] ++ _ = headPieces p)⟩
  simpa [occursIn, render, Piece.text] using h

/-- The email address occurs in the email as a `mailto` link. -/
theorem mailto_occurs (p : Payload) :
    occursIn ("<a href=\"mailto:" ++ toStr p.email ++ "\">" ++ toStr p.email ++ "</a>")
      (emailHtml p) := by
  have h := headPieces_occurs p _
    ⟨(headPieces p).take 16, (headPieces p).drop 21,
      (rfl : _ ++ [.lit "<a href=\"mailto:", .sub (toStr p.email), .lit "\">",
        .sub (toStr p.email), .lit "</a>"] ++ _ = headPieces p)⟩
  simpa [occursIn, render, Piece.text] using h

/-- The phone number occurs in the email as a `tel` link. -/
theorem tel_occurs (p : Payload) :
    occursIn ("<a href=\"tel:" ++ toStr p.phone ++ "\">" ++ toStr p.phone ++ "</a>")
      (emailHtml p) := by
  have h := headPieces_occurs p _
    ⟨(headPieces p).take 23, (headPieces p).drop 28,
      (rfl : _ ++ [.lit "<a href=\"tel:", .sub (toStr p.phone), .lit "\">",
        .sub (toStr p.phone), .lit "</a>"] ++ _ = headPieces p)⟩
  simpa [occursIn, render, Piece.text] using h

/-- The service paragraph occurs in the email, with the default label for a service
that is absent or empty. -/
theorem service_occurs (p : Payload) :
    occursIn ("<p><strong>Service Needed:</strong> "
      ++ (if lacks p.service then "Not specified" else toStr p.service) ++ "</p>")
      (emailHtml p) := by
  have h := servicePieces_occurs p _
    ⟨(servicePieces p).take 6, (servicePieces p).drop 9,
      (rfl : _ ++ [.lit "<p><strong>Service Needed:</strong> ",
        .sub (toStr (jsOr p.service (.string "Not specified"))), .lit "</p>"] ++ _
        = servicePieces p)⟩
  rw [jsOr_eq] at h
  by_cases hl : lacks p.service <;> simpa [occursIn, render, Piece.text, hl, toStr] using h

/-- The urgency paragraph occurs in the email, with the default label for an urgency
that is absent or empty. -/
theorem urgency_occurs (p : Payload) :
    occursIn ("<p><strong>Urgency:</strong> "
      ++ (if lacks p.urgency then "Routine Service" else toStr p.urgency) ++ "</p>")
      (emailHtml p) := by
  have h := servicePieces_occurs p _
    ⟨(servicePieces p).take 11, (servicePieces p).drop 14,
      (rfl : _ ++ [.lit "<p><strong>Urgency:</strong> ",
        .sub (toStr (jsOr p.urgency (.string "Routine Service"))), .lit "</p>"] ++ _
        = servicePieces p)⟩
  rw [jsOr_eq] at h
  by_cases hl : lacks p.urgency <;> simpa [occursIn, render, Piece.text, hl, toStr] using h

/-- The Address paragraph occurs in the email when an address is given. -/
theorem address_occurs (p : Payload) (ha : ¬ lacks p.address) :
    occursIn ("<p><strong>Address:</strong> " ++ toStr p.address ++ "</p>") (emailHtml p) := by
  have ht : toBoolean p.address = true := (toBoolean_eq_true_iff _).2 ha
  have h := addressPieces_occurs p (addressPieces p.address) (List.infix_refl _)
  simpa [occursIn, render, Piece.text, addressPieces, ht] using h

/-- The heading of the Message block occurs in the email when a message is given. -/
theorem message_heading_occurs (p : Payload) (hm : ¬ lacks p.message) :
    occursIn messageMarker (emailHtml p) := by
  have ht : toBoolean p.message = true := (toBoolean_eq_true_iff _).2 hm
  have h := messagePieces_occurs p [.lit messageMarker]
    ⟨(messagePieces p.message).take 3, (messagePieces p.message).drop 4, by
      simp [messagePieces, ht, messageMarker]⟩
  simpa [occursIn, render, Piece.text] using h

/-- The message occurs in the email as a paragraph when a message is given. -/
theorem message_occurs (p : Payload) (hm : ¬ lacks p.message) :
    occursIn ("<p>" ++ toStr p.message ++ "</p>") (emailHtml p) := by
  have ht : toBoolean p.message = true := (toBoolean_eq_true_iff _).2 hm
  have h := messagePieces_occurs p [.lit "<p>", .sub (toStr p.message), .lit "</p>"]
    ⟨(messagePieces p.message).take 6, (messagePieces p.message).drop 9, by
      simp [messagePieces, ht]⟩
  simpa [occursIn, render, Piece.text] using h

theorem shapeOf_headPieces (p q : Payload) :
    shapeOf (headPieces p) = shapeOf (headPieces q) := rfl

theorem shapeOf_servicePieces (p q : Payload) :
    shapeOf (servicePieces p) = shapeOf (servicePieces q) := rfl

theorem shapeOf_tailPieces (p q : Payload) :
    shapeOf (tailPieces p) = shapeOf (tailPieces q) := rfl

theorem shapeOf_addressPieces (v w : JSValue) (h : toBoolean v = toBoolean w) :
    shapeOf (addressPieces v) = shapeOf (addressPieces w) := by
  unfold addressPieces
  rw [h]
  cases toBoolean w <;> rfl

theorem shapeOf_messagePieces (v w : JSValue) (h : toBoolean v = toBoolean w) :
    shapeOf (messagePieces v) = shapeOf (messagePieces w) := by
  unfold messagePieces
  rw [h]
  cases toBoolean w <;> rfl

/-- The skeleton of the template depends on the payload only through the presence of
the address and of the message. -/
theorem shapeOf_emailTemplate (p q : Payload)
    (ha : toBoolean p.address = toBoolean q.address)
    (hm : toBoolean p.message = toBoolean q.message) :
    shapeOf (emailTemplate p) = shapeOf (emailTemplate q) := by
  unfold emailTemplate
  simp only [shapeOf_append]
  rw [shapeOf_headPieces p q, shapeOf_servicePieces p q, shapeOf_tailPieces p q,
    shapeOf_addressPieces _ _ ha, shapeOf_messagePieces _ _ hm]

theorem noMarkup_jsOr (v : JSValue) (d : String) (hv : noMarkup v) (hd : '<' ∉ d.data) :
    '<' ∉ (toStr (jsOr v (.string d))).data := by
  rw [jsOr_eq]
  by_cases h : lacks v
  · simpa [h, toStr] using hd
  · simpa [h] using hv

/-- Every string substituted into the template of a markup-free payload is free of `<`. -/
theorem sub_noMarkup (p : Payload) (hp : p.noMarkup) :
    ∀ s, Piece.sub s ∈ emailTemplate p → '<' ∉ s.data := by
  obtain ⟨h1, h2, h3, h4, h5, h6, h7, h8⟩ := hp
  have h6' := noMarkup_jsOr p.service "Not specified" h6 (by decide)
  have h7' := noMarkup_jsOr p.urgency "Routine Service" h7 (by decide)
  unfold noMarkup at h1 h2 h3 h4 h5 h8
  intro s hs
  simp only [emailTemplate, headPieces, servicePieces, tailPieces, addressPieces,
    messagePieces, List.mem_append, List.mem_cons, Piece.sub.injEq, List.mem_singleton,
    List.not_mem_nil, or_false, false_or, reduceCtorEq] at hs
  rcases hs with (((hs | hs) | hs) | hs) | hs
  · rcases hs with rfl | rfl | rfl | rfl | rfl | rfl <;> assumption
  · split at hs
    · simp only [List.mem_cons, reduceCtorEq, Piece.sub.injEq, List.not_mem_nil,
        or_false, false_or] at hs
      subst hs
      assumption
    · simp at hs
  · rcases hs with rfl | rfl <;> assumption
  · split at hs
    · simp only [List.mem_cons, reduceCtorEq, Piece.sub.injEq, List.not_mem_nil,
        or_false, false_or] at hs
      subst hs
      assumption
    · simp at hs
  · subst hs
    assumption

/-- Without an address and without markup in the fields, the opening of an Address
paragraph occurs nowhere in the email. -/
theorem addressMarker_absent (p : Payload) (ha : lacks p.address) (hp : p.noMarkup) :
    ¬ occursIn addressMarker (emailHtml p) := by
  have hta : toBoolean p.address = false := (toBoolean_eq_false_iff _).2 ha
  refine not_occursIn_render addressMarker "p><strong>Address:</strong>".data _ rfl ?_
    (sub_noMarkup p hp)
  cases htm : toBoolean p.message
  · rw [shapeOf_emailTemplate p (shapeCase .undefined .undefined) hta htm]
    decide!
  · rw [shapeOf_emailTemplate p (shapeCase .undefined (.string "x")) hta htm]
    decide!

/-- Without a message and without markup in the fields, the heading of a Message block
occurs nowhere in the email. -/
theorem messageMarker_absent (p : Payload) (hm : lacks p.message) (hp : p.noMarkup) :
    ¬ occursIn messageMarker (emailHtml p) := by
  have htm : toBoolean p.message = false := (toBoolean_eq_false_iff _).2 hm
  refine not_occursIn_render messageMarker
    "h3 style=\"color: #333; margin-top: 0;\">Message</h3>".data _ rfl ?_ (sub_noMarkup p hp)
  cases hta : toBoolean p.address
  · rw [shapeOf_emailTemplate p (shapeCase .undefined .undefined) hta htm]
    decide!
  · rw [shapeOf_emailTemplate p (shapeCase (.string "x") .undefined) hta htm]
    decide!

/-- C5, counterexample. The payload `forgedAddress` has its four required fields and no
address, yet the HTML rendered for it contains an Address paragraph: the one its
message carries, interpolated unescaped. -/
theorem emailHtml_forged_address :
    (¬ lacks forgedAddress.firstName ∧ ¬ lacks forgedAddress.lastName
        ∧ ¬ lacks forgedAddress.email ∧ ¬ lacks forgedAddress.phone)
      ∧ lacks forgedAddress.address
      ∧ occursIn "<p><strong>Address:</strong> 1 Main St</p>" (emailHtml forgedAddress) := by
  refine ⟨by decide, by decide, ?_⟩
  have h := message_occurs forgedAddress (by decide)
  have h2 : "<p><strong>Address:</strong> 1 Main St</p>".data
      <:+: ("<p>" ++ toStr forgedAddress.message ++ "</p>").data :=
    ⟨"<p>".data, "</p>".data, by decide⟩
  exact h2.trans h

/-- C5, amended. The HTML body rendered for a payload contains the customer's name
(`firstName`, a space, `lastName`), the email as a `mailto` link and the phone as a
`tel` link; the service label, replaced by `Not specified` when service is absent or
empty, and the urgency label, replaced by `Routine Service` when urgency is absent or
empty; an Address paragraph whenever address is present and a Message block whenever
message is present. Provided no submitted field contains the character `<` (submitted
text is interpolated unescaped), it contains an Address paragraph only when address is
present and a Message block only when message is present. -/
theorem emailHtml_contents (p : Payload) :
    occursIn ("<p><strong>Name:</strong> " ++ toStr p.firstName ++ " " ++ toStr p.lastName
        ++ "</p>") (emailHtml p)
      ∧ occursIn ("<a href=\"mailto:" ++ toStr p.email ++ "\">" ++ toStr p.email ++ "</a>")
          (emailHtml p)
      ∧ occursIn ("<a href=\"tel:" ++ toStr p.phone ++ "\">" ++ toStr p.phone ++ "</a>")
          (emailHtml p)
      ∧ occursIn ("<p><strong>Service Needed:</strong> "
          ++ (if lacks p.service then "Not specified" else toStr p.service) ++ "</p>")
          (emailHtml p)
      ∧ occursIn ("<p><strong>Urgency:</strong> "
          ++ (if lacks p.urgency then "Routine Service" else toStr p.urgency) ++ "</p>")
          (emailHtml p)
      ∧ (¬ lacks p.address →
          occursIn ("<p><strong>Address:</strong> " ++ toStr p.address ++ "</p>")
            (emailHtml p))
      ∧ (¬ lacks p.message →
          occursIn messageMarker (emailHtml p)
            ∧ occursIn ("<p>" ++ toStr p.message ++ "</p>") (emailHtml p))
      ∧ (p.noMarkup →
          (occursIn addressMarker (emailHtml p) → ¬ lacks p.address)
            ∧ (occursIn messageMarker (emailHtml p) → ¬ lacks p.message)) :=
  ⟨name_occurs p, mailto_occurs p, tel_occurs p, service_occurs p, urgency_occurs p,
   address_occurs p, fun h => ⟨message_heading_occurs p h, message_occurs p h⟩,
   fun hp => ⟨fun h ha => addressMarker_absent p ha hp h,
              fun h hm => messageMarker_absent p hm hp h⟩⟩

/-- C5, witness: the payloads `janeDoe`, without optional fields, and `fullRequest`,
with all of them. -/
theorem emailHtml_contents_witness :
    janeDoe.noMarkup
      ∧ ¬ occursIn addressMarker (emailHtml janeDoe)
      ∧ ¬ occursIn messageMarker (emailHtml janeDoe)
      ∧ occursIn "<p><strong>Address:</strong> 1 Main St, Miami</p>" (emailHtml fullRequest)
      ∧ occursIn "<p><strong>Service Needed:</strong> Not specified</p>" (emailHtml janeDoe) :=
  ⟨by decide,
   fun h => ((emailHtml_contents janeDoe).2.2.2.2.2.2.2 (by decide)).1 h (by decide),
   fun h => ((emailHtml_contents janeDoe).2.2.2.2.2.2.2 (by decide)).2 h (by decide),
   (emailHtml_contents fullRequest).2.2.2.2.2.1 (by decide),
   (emailHtml_contents janeDoe).2.2.2.1⟩

end SendQuote

/-! ## Submission and revalidation -/

namespace Script

/-- C11. Whenever the form passes validation, whatever the network submission gives
(a success, a response with a non-success status, an unreadable response or a network
error), `handleSubmit` finishes with the submit control enabled and labelled with the
text the constructor recorded in `originalButtonText`, which it never changes; the
control is disabled first and enabling it is the last effect. -/
theorem handleSubmit_restores_button (fetch : List (String × String) → FetchOutcome)
    (self : FormHandler) (hv : (validateForm self.fields).1 = true) :
    (handleSubmit fetch self).1.submitButton
        = { disabled := false, content := .text self.originalButtonText }
      ∧ (handleSubmit fetch self).1.originalButtonText = self.originalButtonText
      ∧ (handleSubmit fetch self).2.head? = some (.setDisabled true)
      ∧ (handleSubmit fetch self).2.getLast? = some (.setDisabled false) := by
  unfold handleSubmit
  simp only [hv, Bool.not_true, Bool.false_eq_true, if_false]
  refine ⟨?_, ?_, by simp, ?_⟩
  rotate_left 2
  · exact List.getLast?_concat _
  · cases (sendQuoteRequest fetch (collectFormData (validateForm self.fields).2)).2 <;>
      simp [showMessage, reset, clearAllValidationStates]
  · cases (sendQuoteRequest fetch (collectFormData (validateForm self.fields).2)).2 <;>
      simp [showMessage, reset, clearAllValidationStates]

/-- C11, witness: a valid form whose submission is answered with a non-success status. -/
theorem handleSubmit_restores_button_witness :
    (validateForm validForm.fields).1 = true
      ∧ ((handleSubmit (fun _ => .json false "Failed to send email") validForm).1.submitButton
            = { disabled := false, content := .text validForm.originalButtonText }
        ∧ (handleSubmit (fun _ => .json false "Failed to send email")
            validForm).1.originalButtonText = validForm.originalButtonText
        ∧ (handleSubmit (fun _ => .json false "Failed to send email") validForm).2.head?
            = some (.setDisabled true)
        ∧ (handleSubmit (fun _ => .json false "Failed to send email") validForm).2.getLast?
            = some (.setDisabled false)) :=
  ⟨by decide,
   handleSubmit_restores_button (fun _ => .json false "Failed to send email") validForm
    (by decide)⟩

/-- The rule of `validateField` does not look at the field group. -/
theorem validationRule_group (field : Field) (group : FormGroup) (value : String) :
    validationRule { field with group := group } value = validationRule field value := rfl

/-- C12. `validateField` is idempotent on a field whose group holds at most one inline
error message: a second application, to the field in the group the first one left,
returns the same result and leaves the same group (classes and inline error
message). -/
theorem validateField_idempotent (field : Field)
    (h : field.group.errorMessages.length ≤ 1) :
    validateField { field with group := (validateField field).2 } = validateField field := by
  have ht : field.group.errorMessages.tail = [] := by
    cases hm : field.group.errorMessages with
    | nil => rfl
    | cons a l =>
      rw [hm] at h
      have hl : l.length = 0 := by
        simp only [List.length_cons] at h
        omega
      simpa using List.length_eq_zero.1 hl
  unfold validateField
  simp only [validationRule_group, ht, List.nil_append]
  generalize validationRule field (trim field.value) = rule
  generalize trim field.value = value
  obtain ⟨isValid, errorMessage⟩ := rule
  cases isValid
  · simp
  · by_cases h3 : value = "" <;> simp [h3]

/-- C12, witness: an invalid phone field whose group already shows one inline error. -/
theorem validateField_idempotent_witness :
    (fieldIn "tel" true "555" ⟨false, true, ["This field is required"]⟩).group.errorMessages.length
        ≤ 1
      ∧ validateField
          { fieldIn "tel" true "555" ⟨false, true, ["This field is required"]⟩ with
            group := (validateField
              (fieldIn "tel" true "555" ⟨false, true, ["This field is required"]⟩)).2 }
        = validateField (fieldIn "tel" true "555" ⟨false, true, ["This field is required"]⟩) :=
  ⟨by decide,
   validateField_idempotent (fieldIn "tel" true "555" ⟨false, true, ["This field is required"]⟩)
    (by decide)⟩

end Script

/-! ## The testimonial carousel -/

namespace Script

theorem item_eq_none_iff (list : List Bool) (index : Int) :
    item list index = none ↔ index < 0 ∨ (list.length : Int) ≤ index := by
  unfold item
  by_cases h : 0 ≤ index
  · simp only [h, if_true, List.getElem?_eq_none_iff]
    omega
  · simp only [h, if_false, true_iff]
    omega

theorem item_ne_none (list : List Bool) (index : Int) (h0 : 0 ≤ index)
    (h1 : index < list.length) : ∃ b, item list index = some b := by
  cases h : item list index with
  | none =>
    have := (item_eq_none_iff list index).1 h
    omega
  | some b => exact ⟨b, rfl⟩

theorem wrapIndex_cases (length : Nat) (slideIndex : Int) :
    ((length : Int) ≤ slideIndex → wrapIndex length slideIndex = 0)
      ∧ (slideIndex < 0 → wrapIndex length slideIndex = length - 1)
      ∧ (0 ≤ slideIndex → slideIndex < length → wrapIndex length slideIndex = slideIndex) := by
  unfold wrapIndex
  refine ⟨fun h => by simp [h], fun h => ?_, fun h0 h1 => ?_⟩
  · have h2 : ¬ slideIndex ≥ (length : Int) := by omega
    simp [h2, h]
  · have h2 : ¬ slideIndex ≥ (length : Int) := by omega
    have h3 : ¬ slideIndex < 0 := by omega
    simp [h2, h3]

theorem wrapIndex_range (length : Nat) (slideIndex : Int) (hn : 1 ≤ length) :
    0 ≤ wrapIndex length slideIndex ∧ wrapIndex length slideIndex < length := by
  unfold wrapIndex
  split
  · omega
  · split <;> omega

/-- C13. For a carousel with `n ≥ 1` slides whose current slide index is in `[0, n)`,
`goToSlide` called with any integer leaves the current slide index in `[0, n)`: the
index it moves to is 0 for an argument `≥ n`, `n - 1` for a negative one and the
argument itself when it is in range; no lookup in the slides gives `undefined`,
whatever the dots are; and when every slide has its dot the call completes and the
current slide index is the wrapped argument. -/
theorem goToSlide_index_in_range (self : Carousel) (slideIndex : Int)
    (hn : 1 ≤ self.slides.length)
    (hc : 0 ≤ self.currentSlide ∧ self.currentSlide < self.slides.length) :
    (((self.slides.length : Int) ≤ slideIndex → wrapIndex self.slides.length slideIndex = 0)
        ∧ (slideIndex < 0
            → wrapIndex self.slides.length slideIndex = self.slides.length - 1)
        ∧ (0 ≤ slideIndex → slideIndex < self.slides.length
            → wrapIndex self.slides.length slideIndex = slideIndex))
      ∧ (goToSlide self slideIndex).1.slides.length = self.slides.length
      ∧ (0 ≤ (goToSlide self slideIndex).1.currentSlide
          ∧ (goToSlide self slideIndex).1.currentSlide < self.slides.length)
      ∧ (∀ index, (goToSlide self slideIndex).2 ≠ some (.slides index))
      ∧ (self.slides.length ≤ self.dots.length →
          (goToSlide self slideIndex).2 = none
            ∧ (goToSlide self slideIndex).1.currentSlide
                = wrapIndex self.slides.length slideIndex) := by
  refine ⟨wrapIndex_cases _ _, ?_⟩
  have hw := wrapIndex_range self.slides.length slideIndex hn
  obtain ⟨b1, h1⟩ := item_ne_none self.slides self.currentSlide hc.1 hc.2
  obtain ⟨b3, h3⟩ := item_ne_none (self.slides.set self.currentSlide.toNat false)
    (wrapIndex self.slides.length slideIndex) hw.1 (by simpa using hw.2)
  unfold goToSlide
  simp only [h1]
  cases h2 : item self.dots self.currentSlide with
  | none =>
    refine ⟨by simp, by simpa using hc, by simp, fun hd => ?_⟩
    have := (item_eq_none_iff _ _).1 h2
    omega
  | some b2 =>
    simp only [h3]
    cases h4 : item (self.dots.set self.currentSlide.toNat false)
        (wrapIndex self.slides.length slideIndex) with
    | none =>
      refine ⟨by simp, by simpa using hw, by simp, fun hd => ?_⟩
      have := (item_eq_none_iff _ _).1 h4
      simp only [List.length_set] at this
      omega
    | some b4 =>
      exact ⟨by simp, by simpa using hw, by simp, fun _ => by simp⟩

/-- C13, witness: on its last slide, a carousel of three slides is asked for slide 3,
as the next button does, and moves to slide 0. -/
theorem goToSlide_index_in_range_witness :
    (1 ≤ threeSlides.slides.length
        ∧ 0 ≤ threeSlides.currentSlide
        ∧ threeSlides.currentSlide < threeSlides.slides.length)
      ∧ (goToSlide threeSlides (threeSlides.currentSlide + 1)).2 = none
      ∧ (goToSlide threeSlides (threeSlides.currentSlide + 1)).1.currentSlide = 0 := by
  have h := goToSlide_index_in_range threeSlides (threeSlides.currentSlide + 1) (by decide)
    ⟨by decide, by decide⟩
  have hw := h.1.1 (by decide)
  have hr := h.2.2.2.2 (by decide)
  exact ⟨⟨by decide, by decide, by decide⟩, hr.1, hr.2.trans hw⟩

end Script
